import Mathlib

/-!
Verification of the Trello MCP server's API client and response formatter.

The definitions below are a shallow embedding of `src/client.ts` and
`src/utils/formatters.ts`: each client operation is modelled as a pure
function from its inputs to the description of the outbound HTTP request it
issues, and the response formatter as a pure function on entity records.
JavaScript runtime behaviours that matter here are made explicit:
truthiness tests on optional strings, `String(...)` casts of booleans and
positions, `URLSearchParams.set`, and the shared `request` helper that
filters out undefined, null and empty-string parameter values.
-/

/- The shared closing tactic of the omitted-field lemmas lists one
alternative per builder idiom; in a builder that uses only some idioms the
remaining alternatives never fire, which the two linters below would
otherwise report on every such lemma. -/
set_option linter.unreachableTactic false
set_option linter.unusedTactic false

namespace Trello

/-- Per-tenant credentials, from `src/types/env.ts`. -/
structure TenantCredentials where
  apiKey : String
  token : String
deriving Repr, DecidableEq

/-- The HTTP verb of an outbound call. -/
inductive HttpMethod where
  | get
  | post
  | put
  | delete
deriving Repr, DecidableEq

/-- A runtime value handed to the `extraParams` record of `request` in
`client.ts`. The TypeScript type is `string`, but the helper also guards
against `undefined` and `null` at runtime, so the embedding keeps all
three cases. -/
inductive JSParam where
  | undef
  | jsnull
  | str (s : String)
deriving Repr, DecidableEq

/-- The guard `v !== undefined && v !== null && v !== ''` of
`client.ts` line 206: the value kept for the query string, if any. -/
def JSParam.keep : JSParam → Option String
  | .str s => if s = "" then none else some s
  | .undef => none
  | .jsnull => none

/-- The outbound request an operation produces: verb, endpoint path,
query parameters in insertion order, and an optional JSON body. -/
structure Request where
  method : HttpMethod
  endpoint : String
  query : List (String × String)
  jsonBody : Option String
deriving Repr, DecidableEq

/-- `URLSearchParams.set k v`: replace the value at an existing key, else
append. The parameter lists built by the client never repeat a key, on
which this model agrees with the platform behaviour. -/
def setParam (ps : List (String × String)) (k v : String) : List (String × String) :=
  if ps.any (fun p => p.1 == k) then
    ps.map (fun p => if p.1 == k then (k, v) else p)
  else
    ps ++ [(k, v)]

/-- One iteration of the parameter loop of `request` (`client.ts` lines
205-209): an entry whose value survives `JSParam.keep` is set, any other
entry is skipped. -/
def applyParam (ps : List (String × String)) (kv : String × JSParam) :
    List (String × String) :=
  match kv.2.keep with
  | some v => setParam ps kv.1 v
  | none => ps

/-- The parameter loop of `request` (`client.ts` lines 204-210): every
extra entry whose value survives `JSParam.keep` is set on top of the
credential parameters. -/
def buildQuery (base : List (String × String)) (extra : List (String × JSParam)) :
    List (String × String) :=
  extra.foldl applyParam base

/-- The shared HTTP helper `TrelloClientImpl.request`: authentication
parameters first (`getAuthParams`, lines 191-196), then the filtered
extra parameters. -/
def request (creds : TenantCredentials) (endpoint : String) (method : HttpMethod)
    (extraParams : List (String × JSParam)) (jsonBody : Option String) : Request :=
  { method := method
    endpoint := endpoint
    query := buildQuery [("key", creds.apiKey), ("token", creds.token)] extraParams
    jsonBody := jsonBody }

/-- A well-typed parameter record, as every operation builder produces,
lifted to the runtime values `request` guards against. -/
def strParams (ps : List (String × String)) : List (String × JSParam) :=
  ps.map (fun p => (p.1, JSParam.str p.2))

/-- JavaScript `String(b)` on a boolean. -/
def boolStr (b : Bool) : String :=
  if b then "true" else "false"

/-- A position argument, `'top' | 'bottom' | number`. Numeric positions
are modelled as integers. -/
inductive TrelloPos where
  | top
  | bottom
  | num (n : Int)
deriving Repr, DecidableEq

/-- JavaScript `String(pos)`. -/
def posStr : TrelloPos → String
  | .top => "top"
  | .bottom => "bottom"
  | .num n => toString n

/-- The status filter of list-style reads, `'all' | 'open' | 'closed'`. -/
inductive StatusFilter where
  | fAll
  | fOpen
  | fClosed
deriving Repr, DecidableEq

/-- The wire value of a status filter. -/
def StatusFilter.wire : StatusFilter → String
  | .fAll => "all"
  | .fOpen => "open"
  | .fClosed => "closed"

/-- The idiom `if (input.x) params.x = input.x` on an optional string
field: a truthiness test, so an empty string is also skipped. -/
def ifTruthy (k : String) : Option String → List (String × String)
  | some s => if s = "" then [] else [(k, s)]
  | none => []

/-- The idiom `if (input.x !== undefined) params.x = input.x` on an
optional string field. -/
def ifDefinedStr (k : String) : Option String → List (String × String)
  | some s => [(k, s)]
  | none => []

/-- The idiom `if (input.x !== undefined) params.x = String(input.x)` on
an optional boolean field. -/
def ifDefinedBool (k : String) : Option Bool → List (String × String)
  | some b => [(k, boolStr b)]
  | none => []

/-- The idiom `if (input.pos !== undefined) params.pos = String(input.pos)`. -/
def ifDefinedPos (k : String) : Option TrelloPos → List (String × String)
  | some p => [(k, posStr p)]
  | none => []

/-- The idiom `if (input.x !== undefined) params.x = input.x === null ? '' : input.x`
on a nullable-clearable field: `none` is an absent field, `some none` an
explicit null, `some (some s)` a value. -/
def ifDefinedNullable (k : String) : Option (Option String) → List (String × String)
  | some none => [(k, "")]
  | some (some s) => [(k, s)]
  | none => []

/-- The idiom `if (input.xs?.length) params.xs = input.xs.join(',')`. -/
def ifNonemptyList (k : String) : Option (List String) → List (String × String)
  | some l => if l.isEmpty then [] else [(k, String.intercalate "," l)]
  | none => []

/-- The idiom `if (input.x !== undefined) params.x = input.x || ''` on a
string-or-null field: a null is replaced by the empty string, a string is
kept (an empty string stays empty). -/
def ifDefinedOrEmpty (k : String) : Option (Option String) → List (String × String)
  | some none => [(k, "")]
  | some (some s) => [(k, s)]
  | none => []

/-- `TrelloCardCreateInput` from `src/types/entities.ts`. -/
structure TrelloCardCreateInput where
  idList : String
  name : String
  desc : Option String := none
  pos : Option TrelloPos := none
  due : Option String := none
  start : Option String := none
  dueComplete : Option Bool := none
  idMembers : Option (List String) := none
  idLabels : Option (List String) := none
  urlSource : Option String := none
  fileSource : Option String := none
  mimeType : Option String := none
  idCardSource : Option String := none
  keepFromSource : Option String := none
  address : Option String := none
  locationName : Option String := none
  coordinates : Option String := none
deriving Repr, DecidableEq

/-- The parameter record built by `createCard` (`client.ts` lines 446-464),
in insertion order. -/
def createCardParams (input : TrelloCardCreateInput) : List (String × String) :=
  [("idList", input.idList), ("name", input.name)]
    ++ ifTruthy "desc" input.desc
    ++ ifDefinedPos "pos" input.pos
    ++ ifTruthy "due" input.due
    ++ ifTruthy "start" input.start
    ++ ifDefinedBool "dueComplete" input.dueComplete
    ++ ifNonemptyList "idMembers" input.idMembers
    ++ ifNonemptyList "idLabels" input.idLabels
    ++ ifTruthy "urlSource" input.urlSource
    ++ ifTruthy "idCardSource" input.idCardSource
    ++ ifTruthy "keepFromSource" input.keepFromSource
    ++ ifTruthy "address" input.address
    ++ ifTruthy "locationName" input.locationName
    ++ ifTruthy "coordinates" input.coordinates

/-- `TrelloClientImpl.createCard`. -/
def createCard (creds : TenantCredentials) (input : TrelloCardCreateInput) : Request :=
  request creds "/cards" .post (strParams (createCardParams input)) none

/-- The `cover` object of a card update input; `updateCard` never reads
it. -/
structure TrelloCardCoverInput where
  color : Option String := none
  brightness : Option String := none
  size : Option String := none
deriving Repr, DecidableEq

/-- `TrelloCardUpdateInput` from `src/types/entities.ts`. The builder in
`updateCard` reads every field except `idMembers`, `idLabels` and
`cover`, which are declared on the input type but never sent. -/
structure TrelloCardUpdateInput where
  name : Option String := none
  desc : Option String := none
  closed : Option Bool := none
  idList : Option String := none
  idBoard : Option String := none
  pos : Option TrelloPos := none
  due : Option (Option String) := none
  start : Option (Option String) := none
  dueComplete : Option Bool := none
  subscribed : Option Bool := none
  idMembers : Option (List String) := none
  idLabels : Option (List String) := none
  cover : Option TrelloCardCoverInput := none
deriving Repr, DecidableEq

/-- The parameter record built by `updateCard` (`client.ts` lines 468-480). -/
def updateCardParams (input : TrelloCardUpdateInput) : List (String × String) :=
  ifTruthy "name" input.name
    ++ ifDefinedStr "desc" input.desc
    ++ ifDefinedBool "closed" input.closed
    ++ ifTruthy "idList" input.idList
    ++ ifTruthy "idBoard" input.idBoard
    ++ ifDefinedPos "pos" input.pos
    ++ ifDefinedNullable "due" input.due
    ++ ifDefinedNullable "start" input.start
    ++ ifDefinedBool "dueComplete" input.dueComplete
    ++ ifDefinedBool "subscribed" input.subscribed

/-- `TrelloClientImpl.updateCard`. -/
def updateCard (creds : TenantCredentials) (cardId : String)
    (input : TrelloCardUpdateInput) : Request :=
  request creds ("/cards/" ++ cardId) .put (strParams (updateCardParams input)) none

/-- `TrelloClientImpl.deleteCard`. -/
def deleteCard (creds : TenantCredentials) (cardId : String) : Request :=
  request creds ("/cards/" ++ cardId) .delete [] none

/-- `TrelloClientImpl.archiveCard`: `updateCard(cardId, { closed: true })`. -/
def archiveCard (creds : TenantCredentials) (cardId : String) : Request :=
  updateCard creds cardId { closed := some true }

/-- `TrelloClientImpl.unarchiveCard`: `updateCard(cardId, { closed: false })`. -/
def unarchiveCard (creds : TenantCredentials) (cardId : String) : Request :=
  updateCard creds cardId { closed := some false }

/-- `TrelloClientImpl.moveCard` (`client.ts` lines 496-500): the input
starts as `{ idList }` and gains `idBoard` only when that argument is
truthy. -/
def moveCard (creds : TenantCredentials) (cardId : String) (idList : String)
    (idBoard : Option String) : Request :=
  updateCard creds cardId
    { idList := some idList
      idBoard :=
        match idBoard with
        | some s => if s = "" then none else some s
        | none => none }

/-- `TrelloListUpdateInput` from `src/types/entities.ts`. -/
structure TrelloListUpdateInput where
  name : Option String := none
  closed : Option Bool := none
  idBoard : Option String := none
  pos : Option TrelloPos := none
  subscribed : Option Bool := none
deriving Repr, DecidableEq

/-- The parameter record built by `updateList` (`client.ts` lines 407-415). -/
def updateListParams (input : TrelloListUpdateInput) : List (String × String) :=
  ifTruthy "name" input.name
    ++ ifDefinedBool "closed" input.closed
    ++ ifTruthy "idBoard" input.idBoard
    ++ ifDefinedPos "pos" input.pos
    ++ ifDefinedBool "subscribed" input.subscribed

/-- `TrelloClientImpl.updateList`. -/
def updateList (creds : TenantCredentials) (listId : String)
    (input : TrelloListUpdateInput) : Request :=
  request creds ("/lists/" ++ listId) .put (strParams (updateListParams input)) none

/-- `TrelloClientImpl.archiveList`: `updateList(listId, { closed: true })`. -/
def archiveList (creds : TenantCredentials) (listId : String) : Request :=
  updateList creds listId { closed := some true }

/-- `TrelloClientImpl.unarchiveList`: `updateList(listId, { closed: false })`. -/
def unarchiveList (creds : TenantCredentials) (listId : String) : Request :=
  updateList creds listId { closed := some false }

/-- `TrelloCheckItemUpdateInput` from `src/types/entities.ts`. The `state`
field keeps its wire string, matching the truthiness test in the builder. -/
structure TrelloCheckItemUpdateInput where
  name : Option String := none
  state : Option String := none
  pos : Option TrelloPos := none
  due : Option (Option String) := none
  idMember : Option (Option String) := none
deriving Repr, DecidableEq

/-- The parameter record built by `updateCheckItem` (`client.ts` lines 643-651). -/
def updateCheckItemParams (input : TrelloCheckItemUpdateInput) : List (String × String) :=
  ifTruthy "name" input.name
    ++ ifTruthy "state" input.state
    ++ ifDefinedPos "pos" input.pos
    ++ ifDefinedNullable "due" input.due
    ++ ifDefinedNullable "idMember" input.idMember

/-- `TrelloClientImpl.updateCheckItem`. -/
def updateCheckItem (creds : TenantCredentials) (cardId : String) (checkItemId : String)
    (input : TrelloCheckItemUpdateInput) : Request :=
  request creds ("/cards/" ++ cardId ++ "/checkItem/" ++ checkItemId) .put
    (strParams (updateCheckItemParams input)) none

/-- `TrelloBoardCreateInput` from `src/types/entities.ts`. -/
structure TrelloBoardCreateInput where
  name : String
  desc : Option String := none
  idOrganization : Option String := none
  idBoardSource : Option String := none
  keepFromSource : Option String := none
  powerUps : Option String := none
  prefs_permissionLevel : Option String := none
  prefs_voting : Option String := none
  prefs_comments : Option String := none
  prefs_invitations : Option String := none
  prefs_selfJoin : Option Bool := none
  prefs_cardCovers : Option Bool := none
  prefs_background : Option String := none
  prefs_cardAging : Option String := none
  defaultLabels : Option Bool := none
  defaultLists : Option Bool := none
deriving Repr, DecidableEq

/-- The parameter record built by `createBoard` (`client.ts` lines 300-319). -/
def createBoardParams (input : TrelloBoardCreateInput) : List (String × String) :=
  [("name", input.name)]
    ++ ifTruthy "desc" input.desc
    ++ ifTruthy "idOrganization" input.idOrganization
    ++ ifTruthy "idBoardSource" input.idBoardSource
    ++ ifTruthy "keepFromSource" input.keepFromSource
    ++ ifTruthy "powerUps" input.powerUps
    ++ ifTruthy "prefs_permissionLevel" input.prefs_permissionLevel
    ++ ifTruthy "prefs_voting" input.prefs_voting
    ++ ifTruthy "prefs_comments" input.prefs_comments
    ++ ifTruthy "prefs_invitations" input.prefs_invitations
    ++ ifDefinedBool "prefs_selfJoin" input.prefs_selfJoin
    ++ ifDefinedBool "prefs_cardCovers" input.prefs_cardCovers
    ++ ifTruthy "prefs_background" input.prefs_background
    ++ ifTruthy "prefs_cardAging" input.prefs_cardAging
    ++ ifDefinedBool "defaultLabels" input.defaultLabels
    ++ ifDefinedBool "defaultLists" input.defaultLists

/-- `TrelloClientImpl.createBoard`. -/
def createBoard (creds : TenantCredentials) (input : TrelloBoardCreateInput) : Request :=
  request creds "/boards" .post (strParams (createBoardParams input)) none

/-- `TrelloBoardUpdateInput` from `src/types/entities.ts`. -/
structure TrelloBoardUpdateInput where
  name : Option String := none
  desc : Option String := none
  closed : Option Bool := none
  subscribed : Option Bool := none
  idOrganization : Option String := none
  prefs_permissionLevel : Option String := none
  prefs_selfJoin : Option Bool := none
  prefs_cardCovers : Option Bool := none
  prefs_hideVotes : Option Bool := none
  prefs_invitations : Option String := none
  prefs_voting : Option String := none
  prefs_comments : Option String := none
  prefs_background : Option String := none
  prefs_cardAging : Option String := none
  prefs_calendarFeedEnabled : Option Bool := none
  labelNames_green : Option String := none
  labelNames_yellow : Option String := none
  labelNames_orange : Option String := none
  labelNames_red : Option String := none
  labelNames_purple : Option String := none
  labelNames_blue : Option String := none
deriving Repr, DecidableEq

/-- The parameter record built by `updateBoard` (`client.ts` lines 321-346). -/
def updateBoardParams (input : TrelloBoardUpdateInput) : List (String × String) :=
  ifTruthy "name" input.name
    ++ ifDefinedStr "desc" input.desc
    ++ ifDefinedBool "closed" input.closed
    ++ ifDefinedBool "subscribed" input.subscribed
    ++ ifTruthy "idOrganization" input.idOrganization
    ++ ifTruthy "prefs/permissionLevel" input.prefs_permissionLevel
    ++ ifDefinedBool "prefs/selfJoin" input.prefs_selfJoin
    ++ ifDefinedBool "prefs/cardCovers" input.prefs_cardCovers
    ++ ifDefinedBool "prefs/hideVotes" input.prefs_hideVotes
    ++ ifTruthy "prefs/invitations" input.prefs_invitations
    ++ ifTruthy "prefs/voting" input.prefs_voting
    ++ ifTruthy "prefs/comments" input.prefs_comments
    ++ ifTruthy "prefs/background" input.prefs_background
    ++ ifTruthy "prefs/cardAging" input.prefs_cardAging
    ++ ifDefinedBool "prefs/calendarFeedEnabled" input.prefs_calendarFeedEnabled
    ++ ifTruthy "labelNames/green" input.labelNames_green
    ++ ifTruthy "labelNames/yellow" input.labelNames_yellow
    ++ ifTruthy "labelNames/orange" input.labelNames_orange
    ++ ifTruthy "labelNames/red" input.labelNames_red
    ++ ifTruthy "labelNames/purple" input.labelNames_purple
    ++ ifTruthy "labelNames/blue" input.labelNames_blue

/-- `TrelloClientImpl.updateBoard`. -/
def updateBoard (creds : TenantCredentials) (boardId : String) (input : TrelloBoardUpdateInput) : Request :=
  request creds ("/boards/" ++ boardId) .put (strParams (updateBoardParams input)) none

/-- `TrelloListCreateInput` from `src/types/entities.ts`. -/
structure TrelloListCreateInput where
  name : String
  idBoard : String
  idListSource : Option String := none
  pos : Option TrelloPos := none
deriving Repr, DecidableEq

/-- The parameter record built by `createList` (`client.ts` lines 396-405). -/
def createListParams (input : TrelloListCreateInput) : List (String × String) :=
  [("name", input.name), ("idBoard", input.idBoard)]
    ++ ifTruthy "idListSource" input.idListSource
    ++ ifDefinedPos "pos" input.pos

/-- `TrelloClientImpl.createList`. -/
def createList (creds : TenantCredentials) (input : TrelloListCreateInput) : Request :=
  request creds "/lists" .post (strParams (createListParams input)) none

/-- `TrelloLabelCreateInput` from `src/types/entities.ts`. The `color`
field is string-or-null (`TrelloColor`); `none` models null, which the
builder's truthiness guard skips exactly like an absent field. -/
structure TrelloLabelCreateInput where
  name : String
  color : Option String := none
  idBoard : String
deriving Repr, DecidableEq

/-- The parameter record built by `createLabel` (`client.ts` lines 582-590). -/
def createLabelParams (input : TrelloLabelCreateInput) : List (String × String) :=
  [("name", input.name), ("idBoard", input.idBoard)]
    ++ ifTruthy "color" input.color

/-- `TrelloClientImpl.createLabel`. -/
def createLabel (creds : TenantCredentials) (input : TrelloLabelCreateInput) : Request :=
  request creds "/labels" .post (strParams (createLabelParams input)) none

/-- `TrelloLabelUpdateInput` from `src/types/entities.ts`. -/
structure TrelloLabelUpdateInput where
  name : Option String := none
  color : Option (Option String) := none
deriving Repr, DecidableEq

/-- The parameter record built by `updateLabel` (`client.ts` lines 592-598). -/
def updateLabelParams (input : TrelloLabelUpdateInput) : List (String × String) :=
  ifDefinedStr "name" input.name
    ++ ifDefinedOrEmpty "color" input.color

/-- `TrelloClientImpl.updateLabel`. -/
def updateLabel (creds : TenantCredentials) (labelId : String) (input : TrelloLabelUpdateInput) : Request :=
  request creds ("/labels/" ++ labelId) .put (strParams (updateLabelParams input)) none

/-- `TrelloChecklistCreateInput` from `src/types/entities.ts`. -/
structure TrelloChecklistCreateInput where
  idCard : String
  name : Option String := none
  pos : Option TrelloPos := none
  idChecklistSource : Option String := none
deriving Repr, DecidableEq

/-- The parameter record built by `createChecklist` (`client.ts` lines 612-619). -/
def createChecklistParams (input : TrelloChecklistCreateInput) : List (String × String) :=
  [("idCard", input.idCard)]
    ++ ifTruthy "name" input.name
    ++ ifDefinedPos "pos" input.pos
    ++ ifTruthy "idChecklistSource" input.idChecklistSource

/-- `TrelloClientImpl.createChecklist`. -/
def createChecklist (creds : TenantCredentials) (input : TrelloChecklistCreateInput) : Request :=
  request creds "/checklists" .post (strParams (createChecklistParams input)) none

/-- `TrelloCheckItemCreateInput` from `src/types/entities.ts`. -/
structure TrelloCheckItemCreateInput where
  name : String
  pos : Option TrelloPos := none
  checked : Option Bool := none
  due : Option String := none
  idMember : Option String := none
deriving Repr, DecidableEq

/-- The parameter record built by `createCheckItem` (`client.ts` lines 633-641). -/
def createCheckItemParams (input : TrelloCheckItemCreateInput) : List (String × String) :=
  [("name", input.name)]
    ++ ifDefinedPos "pos" input.pos
    ++ ifDefinedBool "checked" input.checked
    ++ ifTruthy "due" input.due
    ++ ifTruthy "idMember" input.idMember

/-- `TrelloClientImpl.createCheckItem`. -/
def createCheckItem (creds : TenantCredentials) (checklistId : String) (input : TrelloCheckItemCreateInput) : Request :=
  request creds ("/checklists/" ++ checklistId ++ "/checkItems") .post (strParams (createCheckItemParams input)) none

/-- `TrelloCustomFieldCreateInput` from `src/types/entities.ts`. -/
structure TrelloCustomFieldCreateInput where
  idModel : String
  modelType : String
  name : String
  type : String
  pos : Option TrelloPos := none
  display_cardFront : Option Bool := none
deriving Repr, DecidableEq

/-- The parameter record built by `createCustomField` (`client.ts` lines 666-677). -/
def createCustomFieldParams (input : TrelloCustomFieldCreateInput) : List (String × String) :=
  [("idModel", input.idModel), ("modelType", input.modelType), ("name", input.name), ("type", input.type)]
    ++ ifDefinedPos "pos" input.pos
    ++ ifDefinedBool "display_cardFront" input.display_cardFront

/-- `TrelloClientImpl.createCustomField`. -/
def createCustomField (creds : TenantCredentials) (input : TrelloCustomFieldCreateInput) : Request :=
  request creds "/customFields" .post (strParams (createCustomFieldParams input)) none

/-- `TrelloCustomFieldUpdateInput` from `src/types/entities.ts`. -/
structure TrelloCustomFieldUpdateInput where
  name : Option String := none
  pos : Option TrelloPos := none
  display_cardFront : Option Bool := none
deriving Repr, DecidableEq

/-- The parameter record built by `updateCustomField` (`client.ts` lines 679-686). -/
def updateCustomFieldParams (input : TrelloCustomFieldUpdateInput) : List (String × String) :=
  ifTruthy "name" input.name
    ++ ifDefinedPos "pos" input.pos
    ++ ifDefinedBool "display/cardFront" input.display_cardFront

/-- `TrelloClientImpl.updateCustomField`. -/
def updateCustomField (creds : TenantCredentials) (customFieldId : String) (input : TrelloCustomFieldUpdateInput) : Request :=
  request creds ("/customFields/" ++ customFieldId) .put (strParams (updateCustomFieldParams input)) none

/-- `TrelloOrganizationCreateInput` from `src/types/entities.ts`. -/
structure TrelloOrganizationCreateInput where
  displayName : String
  desc : Option String := none
  name : Option String := none
  website : Option String := none
deriving Repr, DecidableEq

/-- The parameter record built by `createOrganization` (`client.ts` lines 723-730). -/
def createOrganizationParams (input : TrelloOrganizationCreateInput) : List (String × String) :=
  [("displayName", input.displayName)]
    ++ ifTruthy "desc" input.desc
    ++ ifTruthy "name" input.name
    ++ ifTruthy "website" input.website

/-- `TrelloClientImpl.createOrganization`. -/
def createOrganization (creds : TenantCredentials) (input : TrelloOrganizationCreateInput) : Request :=
  request creds "/organizations" .post (strParams (createOrganizationParams input)) none

/-- `TrelloOrganizationUpdateInput` from `src/types/entities.ts`. -/
structure TrelloOrganizationUpdateInput where
  name : Option String := none
  displayName : Option String := none
  desc : Option String := none
  website : Option String := none
  prefs_permissionLevel : Option String := none
  prefs_orgInviteRestrict : Option String := none
  prefs_boardVisibilityRestrict_private : Option String := none
  prefs_boardVisibilityRestrict_org : Option String := none
  prefs_boardVisibilityRestrict_public : Option String := none
deriving Repr, DecidableEq

/-- The parameter record built by `updateOrganization` (`client.ts` lines
732-745). The source writes `params.website = input.website || ''`; on a
string value `x || ''` equals `x` (an empty string stays empty), so the
defined-string idiom models it. -/
def updateOrganizationParams (input : TrelloOrganizationUpdateInput) : List (String × String) :=
  ifTruthy "name" input.name
    ++ ifTruthy "displayName" input.displayName
    ++ ifDefinedStr "desc" input.desc
    ++ ifDefinedStr "website" input.website
    ++ ifTruthy "prefs/permissionLevel" input.prefs_permissionLevel
    ++ ifTruthy "prefs/orgInviteRestrict" input.prefs_orgInviteRestrict
    ++ ifTruthy "prefs/boardVisibilityRestrict/private" input.prefs_boardVisibilityRestrict_private
    ++ ifTruthy "prefs/boardVisibilityRestrict/org" input.prefs_boardVisibilityRestrict_org
    ++ ifTruthy "prefs/boardVisibilityRestrict/public" input.prefs_boardVisibilityRestrict_public

/-- `TrelloClientImpl.updateOrganization`. -/
def updateOrganization (creds : TenantCredentials) (orgId : String) (input : TrelloOrganizationUpdateInput) : Request :=
  request creds ("/organizations/" ++ orgId) .put (strParams (updateOrganizationParams input)) none

/-- `TrelloWebhookCreateInput` from `src/types/entities.ts`. -/
structure TrelloWebhookCreateInput where
  callbackURL : String
  idModel : String
  description : Option String := none
  active : Option Bool := none
deriving Repr, DecidableEq

/-- The parameter record built by `createWebhook` (`client.ts` lines 806-815). -/
def createWebhookParams (input : TrelloWebhookCreateInput) : List (String × String) :=
  [("callbackURL", input.callbackURL), ("idModel", input.idModel)]
    ++ ifTruthy "description" input.description
    ++ ifDefinedBool "active" input.active

/-- `TrelloClientImpl.createWebhook`. -/
def createWebhook (creds : TenantCredentials) (input : TrelloWebhookCreateInput) : Request :=
  request creds "/webhooks" .post (strParams (createWebhookParams input)) none

/-- `TrelloWebhookUpdateInput` from `src/types/entities.ts`. -/
structure TrelloWebhookUpdateInput where
  description : Option String := none
  callbackURL : Option String := none
  idModel : Option String := none
  active : Option Bool := none
deriving Repr, DecidableEq

/-- The parameter record built by `updateWebhook` (`client.ts` lines 817-825). -/
def updateWebhookParams (input : TrelloWebhookUpdateInput) : List (String × String) :=
  ifDefinedStr "description" input.description
    ++ ifTruthy "callbackURL" input.callbackURL
    ++ ifTruthy "idModel" input.idModel
    ++ ifDefinedBool "active" input.active

/-- `TrelloClientImpl.updateWebhook`. -/
def updateWebhook (creds : TenantCredentials) (webhookId : String) (input : TrelloWebhookUpdateInput) : Request :=
  request creds ("/webhooks/" ++ webhookId) .put (strParams (updateWebhookParams input)) none

/-- `TrelloAttachmentCreateInput` from `src/types/entities.ts`. -/
structure TrelloAttachmentCreateInput where
  name : Option String := none
  file : Option String := none
  mimeType : Option String := none
  url : Option String := none
  setCover : Option Bool := none
deriving Repr, DecidableEq

/-- The parameter record built by `addAttachmentToCard` (`client.ts` lines 510-518). -/
def addAttachmentToCardParams (input : TrelloAttachmentCreateInput) : List (String × String) :=
  ifTruthy "name" input.name
    ++ ifTruthy "url" input.url
    ++ ifTruthy "mimeType" input.mimeType
    ++ ifDefinedBool "setCover" input.setCover

/-- `TrelloClientImpl.addAttachmentToCard`. -/
def addAttachmentToCard (creds : TenantCredentials) (cardId : String) (input : TrelloAttachmentCreateInput) : Request :=
  request creds ("/cards/" ++ cardId ++ "/attachments") .post (strParams (addAttachmentToCardParams input)) none

/-- `TrelloClientImpl.getMemberBoards` (`client.ts` lines 276-278): the
filter argument defaults to `open` when the caller omits it. -/
def getMemberBoards (creds : TenantCredentials) (idOrUsername : String)
    (filter : Option StatusFilter) : Request :=
  request creds ("/members/" ++ idOrUsername ++ "/boards") .get
    (strParams [("filter", (filter.getD .fOpen).wire)]) none

/-- `TrelloClientImpl.listBoards`: `getMemberBoards('me', filter)`. -/
def listBoards (creds : TenantCredentials) (filter : Option StatusFilter) : Request :=
  getMemberBoards creds "me" filter

/-- `TrelloClientImpl.getBoardLists` (`client.ts` lines 356-358). -/
def getBoardLists (creds : TenantCredentials) (boardId : String)
    (filter : Option StatusFilter) : Request :=
  request creds ("/boards/" ++ boardId ++ "/lists") .get
    (strParams [("filter", (filter.getD .fOpen).wire)]) none

/-- `TrelloClientImpl.getBoardCards` (`client.ts` lines 360-362). -/
def getBoardCards (creds : TenantCredentials) (boardId : String)
    (filter : Option StatusFilter) : Request :=
  request creds ("/boards/" ++ boardId ++ "/cards") .get
    (strParams [("filter", (filter.getD .fOpen).wire)]) none

/-- `TrelloClientImpl.getListCards` (`client.ts` lines 426-428). -/
def getListCards (creds : TenantCredentials) (listId : String)
    (filter : Option StatusFilter) : Request :=
  request creds ("/lists/" ++ listId ++ "/cards") .get
    (strParams [("filter", (filter.getD .fOpen).wire)]) none

/-- `TrelloClientImpl.getOrganizationBoards` (`client.ts` lines 755-757). -/
def getOrganizationBoards (creds : TenantCredentials) (orgId : String)
    (filter : Option StatusFilter) : Request :=
  request creds ("/organizations/" ++ orgId ++ "/boards") .get
    (strParams [("filter", (filter.getD .fOpen).wire)]) none

/-- The part of an upstream HTTP response the client inspects: the status
code, the `Retry-After` header (`response.headers.get` yields null when
the header is absent), and the body text. -/
structure HttpResponse where
  status : Nat
  retryAfterHeader : Option String
  body : String
deriving Repr, DecidableEq

/-- The `fetch` response flag `ok`: status in the range 200-299. -/
def HttpResponse.ok (r : HttpResponse) : Bool :=
  200 ≤ r.status && r.status ≤ 299

/-- The typed failures the client raises. `errors.ts` defines the classes;
the constructor arguments are the ones `client.ts` passes. A rate-limit
delay of `none` models a NaN from `parseInt` on a non-numeric header. -/
inductive ClientError where
  | authenticationError (message : String)
  | rateLimitError (message : String) (retryAfter : Option Int)
  | apiError (message : String) (statusCode : Nat)
deriving Repr, DecidableEq

/-- The `message` property of a thrown error, as `testConnection` reads it. -/
def ClientError.message : ClientError → String
  | .authenticationError m => m
  | .rateLimitError m _ => m
  | .apiError m _ => m

/-- Modelled from the spec: `src/utils/errors.ts` is not among the
repository's files, and section 7 of the spec gives the taxonomy:
AuthenticationError is not retryable, RateLimitError is retryable, and
ApiError is retryable only for the 5xx class by convention. -/
def ClientError.retryable : ClientError → Bool
  | .authenticationError _ => false
  | .rateLimitError _ _ => true
  | .apiError _ status => 500 ≤ status && status ≤ 599

/-- The value of digit characters read in base 10. -/
def digitsVal (ds : List Char) : Nat :=
  ds.foldl (fun n c => n * 10 + (c.toNat - 48)) 0

/-- The digit-prefix step of `parseInt(s, 10)`: the value of the leading
run of digits, or `none` (NaN) when there is none. -/
def digitsParse (cs : List Char) : Option Nat :=
  if (cs.takeWhile Char.isDigit).isEmpty then none
  else some (digitsVal (cs.takeWhile Char.isDigit))

/-- The sign handling of `parseInt(s, 10)` after whitespace is dropped. -/
def jsParseIntChars (cs : List Char) : Option Int :=
  match cs with
  | [] => none
  | c :: rest =>
    if c = '-' then (digitsParse rest).map (fun n => -(n : Int))
    else if c = '+' then (digitsParse rest).map (fun n => (n : Int))
    else (digitsParse cs).map (fun n => (n : Int))

/-- JavaScript `parseInt(s, 10)`: skip leading spaces, read an optional
sign and then the leading digits; `none` models NaN. -/
def jsParseInt (s : String) : Option Int :=
  jsParseIntChars (s.data.dropWhile (fun c => c = ' '))

/-- Specification-side reading of a header value: the decimal numeric
value of a nonempty all-digit string, and nothing for any other string. -/
def decimalNat (s : String) : Option Nat :=
  if s.data ≠ [] ∧ s.data.all Char.isDigit then some (digitsVal s.data) else none

/-- The rate-limit delay of `client.ts` line 225:
`retryAfter ? parseInt(retryAfter, 10) : 60` — an absent or empty header
is falsy and yields the 60-second default. -/
def retryAfterOf : Option String → Option Int
  | none => some 60
  | some s => if s = "" then some 60 else jsParseInt s

/-- The response handling of `TrelloClientImpl.request` (`client.ts`
lines 222-246): 429 and 401 are classified first, any other non-2xx
status becomes an ApiError carrying the body, an empty 2xx body is a void
result, and otherwise the body is returned (JSON parsing is abstracted as
the body text). -/
def classifyResponse (r : HttpResponse) : Except ClientError (Option String) :=
  if r.status = 429 then
    .error (.rateLimitError "Rate limit exceeded" (retryAfterOf r.retryAfterHeader))
  else if r.status = 401 then
    .error (.authenticationError "Invalid API key or token")
  else if !r.ok then
    .error (.apiError ("Trello API error: " ++ r.body) r.status)
  else if r.body = "" then
    .ok none
  else
    .ok (some r.body)

/-- One client operation end to end: the operation sends its `Request` and
hands the upstream response to the shared helper, which classifies it;
the classification does not depend on which request was sent. Every
operation of the client returns this outcome to its caller unchanged. -/
def performOp (_op : Request) (r : HttpResponse) : Except ClientError (Option String) :=
  classifyResponse r

/-- The member fields `testConnection` and the member table read. -/
structure TrelloMember where
  id : String
  username : String
  fullName : String
deriving Repr, DecidableEq

/-- The result record of `testConnection`. -/
structure ConnectionStatus where
  connected : Bool
  message : String
deriving Repr, DecidableEq

/-- `TrelloClientImpl.testConnection` (`client.ts` lines 252-262) as a
function of the outcome of its `getMe` call: a success reports the member,
and any thrown error is caught and turned into a `connected: false`
record carrying the error message. -/
def testConnection (getMeOutcome : Except ClientError TrelloMember) : ConnectionStatus :=
  match getMeOutcome with
  | .ok m =>
    { connected := true
      message := "Connected as " ++ m.fullName ++ " (@" ++ m.username ++ ")" }
  | .error e => { connected := false, message := e.message }

/-- The board fields the boards table reads, from `src/types/entities.ts`. -/
structure TrelloBoard where
  id : String
  name : String
  closed : Bool
  shortUrl : String
deriving Repr, DecidableEq

/-- The list fields the lists table reads. -/
structure TrelloList where
  id : String
  name : String
  closed : Bool
  pos : Int
deriving Repr, DecidableEq

/-- The state of a check item, `'complete' | 'incomplete'`. -/
inductive CheckItemState where
  | complete
  | incomplete
deriving Repr, DecidableEq, BEq

/-- The check-item fields the checklist rendering reads. -/
structure TrelloCheckItem where
  id : String
  name : String
  state : CheckItemState
deriving Repr, DecidableEq

/-- The checklist fields the checklist rendering reads. -/
structure TrelloChecklist where
  id : String
  name : String
  checkItems : List TrelloCheckItem
deriving Repr, DecidableEq

/-- `escapeMarkdown` of `formatters.ts` lines 328-330:
`text.replace(/[|]/g, '\\|').replace(/\n/g, ' ')`. Both patterns are
single characters, so the two global replaces are carried out
character-wise. -/
def escapeMarkdown (text : String) : String :=
  String.mk
    ((text.data.flatMap (fun c => if c = '|' then ['\\', '|'] else [c])).map
      (fun c => if c = '\n' then ' ' else c))

/-- `capitalize` of `formatters.ts`. -/
def capitalize (s : String) : String :=
  match s.data with
  | [] => ""
  | c :: cs => String.mk (c.toUpper :: cs)

/-- One row of the boards table (`formatters.ts` line 143): the name is
inserted without escaping. -/
def boardRow (b : TrelloBoard) : String :=
  "| " ++ b.name ++ " | `" ++ b.id ++ "` | "
    ++ (if b.closed then "Closed" else "Open") ++ " | " ++ b.shortUrl ++ " |"

/-- The lines `formatBoardsTable` pushes (`formatters.ts` lines 136-147). -/
def boardsTableLines (boards : List TrelloBoard) : List String :=
  ["| Name | ID | Status | URL |", "|---|---|---|---|"] ++ boards.map boardRow

/-- `formatBoardsTable`. -/
def formatBoardsTable (boards : List TrelloBoard) : String :=
  String.intercalate "\n" (boardsTableLines boards)

/-- One row of the lists table (`formatters.ts` line 159): the name is
inserted without escaping. -/
def listRow (l : TrelloList) : String :=
  "| " ++ l.name ++ " | `" ++ l.id ++ "` | "
    ++ (if l.closed then "Archived" else "Active") ++ " | " ++ toString l.pos ++ " |"

/-- The lines `formatListsTable` pushes (`formatters.ts` lines 152-163). -/
def listsTableLines (lists : List TrelloList) : List String :=
  ["| Name | ID | Status | Position |", "|---|---|---|---|"] ++ lists.map listRow

/-- `formatListsTable`. -/
def formatListsTable (lists : List TrelloList) : String :=
  String.intercalate "\n" (listsTableLines lists)

/-- `formatArrayAsMarkdown` (`formatters.ts` lines 94-131) specialised to
the `boards` entity kind: an empty input renders the no-items message, a
nonempty one renders heading, count and the boards table. -/
def formatBoardsArrayAsMarkdown (boards : List TrelloBoard) : String :=
  if boards.length = 0 then
    "## " ++ capitalize "boards" ++ "\n\n_No items found._"
  else
    String.intercalate "\n"
      ["## " ++ capitalize "boards", "**Count:** " ++ toString boards.length, "",
        formatBoardsTable boards]

/-- The checkbox of one check item (`formatters.ts` line 230). -/
def checkItemBox (i : TrelloCheckItem) : String :=
  if i.state == CheckItemState.complete then "[x]" else "[ ]"

/-- One rendered check-item entry (`formatters.ts` line 231). -/
def checkItemLine (i : TrelloCheckItem) : String :=
  "- " ++ checkItemBox i ++ " " ++ escapeMarkdown i.name

/-- The completed count of a checklist (`formatters.ts` line 222):
`checkItems.filter(item => item.state === 'complete').length`. -/
def completedCount (c : TrelloChecklist) : Nat :=
  (c.checkItems.filter (fun i => i.state == CheckItemState.complete)).length

/-- The heading line of one checklist (`formatters.ts` line 224). -/
def checklistHeading (c : TrelloChecklist) : String :=
  "### " ++ escapeMarkdown c.name ++ " (" ++ toString (completedCount c) ++ "/"
    ++ toString c.checkItems.length ++ ")"

/-- The lines pushed for one checklist (`formatters.ts` lines 221-237). -/
def checklistBlock (c : TrelloChecklist) : List String :=
  [checklistHeading c, "**ID:** `" ++ c.id ++ "`", ""]
    ++ (if c.checkItems.length > 0 then c.checkItems.map checkItemLine else ["_No items_"])
    ++ [""]

/-- `formatChecklistsTable` (`formatters.ts` lines 218-240). -/
def formatChecklistsTable (checklists : List TrelloChecklist) : String :=
  String.intercalate "\n" (checklists.flatMap checklistBlock)

/-! Concrete fixtures used by counterexamples and witnesses. -/

/-- A concrete credential pair. -/
def creds0 : TenantCredentials := { apiKey := "k", token := "t" }

/-- A board whose name holds a raw column separator. -/
def pipeBoard : TrelloBoard := { id := "b1", name := "a|b", closed := false, shortUrl := "url1" }

/-- A list whose name holds a raw column separator. -/
def pipeList : TrelloList := { id := "l1", name := "x|y", closed := false, pos := 1 }

/-- A 401 upstream response. -/
def resp401 : HttpResponse := { status := 401, retryAfterHeader := none, body := "" }

/-- A 429 upstream response whose Retry-After header reads 30. -/
def resp429 : HttpResponse := { status := 429, retryAfterHeader := some "30", body := "" }

/-- No query parameter of the request carries the given key. -/
def keyAbsent (r : Request) (k : String) : Prop :=
  ∀ v, (k, v) ∉ r.query

/-! Lemmas about the shared request helper. -/

/-- An element of `setParam ps k v` is an element of `ps` or the pair set. -/
lemma mem_setParam {ps : List (String × String)} {k v : String} {q : String × String}
    (h : q ∈ setParam ps k v) : q ∈ ps ∨ q = (k, v) := by
  unfold setParam at h
  split at h
  · obtain ⟨p, hp, he⟩ := List.mem_map.mp h
    by_cases hk : p.1 == k
    · right
      simp only [if_pos hk] at he
      exact he.symm
    · left
      simp only [if_neg hk] at he
      exact he ▸ hp
  · rcases List.mem_append.mp h with h1 | h1
    · exact Or.inl h1
    · right
      simpa using h1

/-- A kept parameter value came from a nonempty string entry. -/
lemma JSParam.keep_eq_some {v : JSParam} {s : String} (h : v.keep = some s) :
    v = .str s ∧ s ≠ "" := by
  cases v with
  | undef => simp [JSParam.keep] at h
  | jsnull => simp [JSParam.keep] at h
  | str t =>
    simp only [JSParam.keep] at h
    by_cases ht : t = ""
    · rw [if_pos ht] at h
      exact absurd h (by simp)
    · rw [if_neg ht] at h
      obtain rfl : t = s := by injection h
      exact ⟨rfl, ht⟩

/-- A skipped entry leaves the accumulated parameters unchanged. -/
lemma applyParam_none {ps : List (String × String)} {kv : String × JSParam}
    (h : kv.2.keep = none) : applyParam ps kv = ps := by
  unfold applyParam
  rw [h]

/-- A kept entry is set on the accumulated parameters. -/
lemma applyParam_some {ps : List (String × String)} {kv : String × JSParam} {v : String}
    (h : kv.2.keep = some v) : applyParam ps kv = setParam ps kv.1 v := by
  unfold applyParam
  rw [h]

/-- Every entry of the built query is a base entry or a nonempty string
entry of the extra parameters. -/
lemma mem_buildQuery {extra : List (String × JSParam)} :
    ∀ {base : List (String × String)} {q : String × String},
      q ∈ buildQuery base extra →
      q ∈ base ∨ ((q.1, JSParam.str q.2) ∈ extra ∧ q.2 ≠ "") := by
  induction extra with
  | nil =>
    intro base q h
    exact Or.inl h
  | cons p rest ih =>
    intro base q h
    have hstep : q ∈ buildQuery (applyParam base p) rest := by
      simpa [buildQuery] using h
    cases hk : p.2.keep with
    | none =>
      rw [applyParam_none hk] at hstep
      rcases ih hstep with hb | ⟨hm, hne⟩
      · exact Or.inl hb
      · exact Or.inr ⟨List.mem_cons_of_mem _ hm, hne⟩
    | some v =>
      rw [applyParam_some hk] at hstep
      rcases ih hstep with hb | ⟨hm, hne⟩
      · rcases mem_setParam hb with h1 | h1
        · exact Or.inl h1
        · obtain ⟨hv, hvne⟩ := JSParam.keep_eq_some hk
          subst h1
          refine Or.inr ⟨?_, hvne⟩
          have hp : p = (p.1, JSParam.str v) := by
            rw [← hv]
          rw [hp]
          exact List.mem_cons_self _ _
      · exact Or.inr ⟨List.mem_cons_of_mem _ hm, hne⟩

/-! The claims. -/

/-- C10: every entry the helper excludes (undefined, null or the empty
string) never reaches the outbound query string, so every query parameter
other than the credential parameters key and token carries a nonempty
string value that was an entry of the extra-parameter record. -/
theorem request_query_params_nonempty (creds : TenantCredentials) (endpoint : String)
    (method : HttpMethod) (extraParams : List (String × JSParam)) (jsonBody : Option String) :
    ∀ q ∈ (request creds endpoint method extraParams jsonBody).query,
      q.1 = "key" ∨ q.1 = "token" ∨ ((q.1, JSParam.str q.2) ∈ extraParams ∧ q.2 ≠ "") := by
  intro q h
  have h' : q ∈ buildQuery [("key", creds.apiKey), ("token", creds.token)] extraParams := h
  rcases mem_buildQuery h' with hb | he
  · rcases List.mem_cons.mp hb with h1 | h1
    · left
      rw [h1]
    · rcases List.mem_cons.mp h1 with h2 | h2
      · right
        left
        rw [h2]
      · exact absurd h2 (List.not_mem_nil _)
  · exact Or.inr (Or.inr he)

/-- C10 witness: the invariant applied to a concrete request carrying one
nonempty extra parameter. -/
theorem request_query_params_nonempty_witness :
    (("a", "1") : String × String).1 = "key" ∨ (("a", "1") : String × String).1 = "token"
      ∨ (((("a", "1") : String × String).1, JSParam.str (("a", "1") : String × String).2)
            ∈ [("a", JSParam.str "1")] ∧ (("a", "1") : String × String).2 ≠ "") :=
  request_query_params_nonempty creds0 "/x" .get [("a", JSParam.str "1")] none
    ("a", "1") (by decide)

/-- C1: `updateCard` maps an explicit null due date to the empty-string
parameter `due=`, but the shared helper then filters every empty-string
value out, so the outbound query of the call carries no `due` (and, for
`updateCheckItem`, no `due` or `idMember`) parameter at all — the
parameter the claim requires on the wire is dropped. -/
theorem updateCard_null_due_parameter_dropped :
    updateCardParams { due := some none } = [("due", "")]
      ∧ (updateCard creds0 "card1" { due := some none }).query
          = [("key", "k"), ("token", "t")]
      ∧ updateCheckItemParams { due := some none, idMember := some none }
          = [("due", ""), ("idMember", "")]
      ∧ (updateCheckItem creds0 "card1" "item1"
            { due := some none, idMember := some none }).query
          = [("key", "k"), ("token", "t")] :=
  ⟨rfl, rfl, rfl, rfl⟩

/-- C2: the boards table and the lists table insert the entity name into
the row without escaping it, so a name holding a raw column separator
reaches the cell verbatim — unlike the escaped form `escapeMarkdown`
would produce. -/
theorem boards_lists_table_cells_unescaped :
    boardRow pipeBoard = "| a|b | `b1` | Open | url1 |"
      ∧ listRow pipeList = "| x|y | `l1` | Active | 1 |"
      ∧ escapeMarkdown "a|b" = "a\\|b"
      ∧ escapeMarkdown "x|y" = "x\\|y"
      ∧ boardRow pipeBoard ≠ "| " ++ escapeMarkdown "a|b" ++ " | `b1` | Open | url1 |"
      ∧ ((boardRow pipeBoard).data.filter (fun c => c = '|')).length = 6
      ∧ (("| Name | ID | Status | URL |" : String).data.filter (fun c => c = '|')).length = 5 :=
  ⟨rfl, rfl, rfl, rfl, by decide, by decide, by decide⟩

/-- C3 counterexample: a 401 response is classified as the authentication
error, but `testConnection` does not pass it upward: it catches the
failure and returns an ordinary `connected: false` record carrying only
the message. -/
theorem testConnection_swallows_auth_error :
    classifyResponse resp401
        = Except.error (ClientError.authenticationError "Invalid API key or token")
      ∧ testConnection
            (Except.error (ClientError.authenticationError "Invalid API key or token"))
          = { connected := false, message := "Invalid API key or token" } :=
  ⟨rfl, rfl⟩

/-- C3 as amended: every client operation classifies a 401 upstream
response as the AuthenticationError once at the transport boundary,
regardless of which request was sent; `testConnection` alone catches the
failure and reports it as a `connected: false` record carrying the
message of the error. -/
theorem auth_error_classified_testConnection_catches (op : Request) (r : HttpResponse)
    (e : ClientError) :
    (r.status = 401 →
        performOp op r
          = Except.error (ClientError.authenticationError "Invalid API key or token"))
      ∧ testConnection (Except.error e) = { connected := false, message := e.message } := by
  constructor
  · intro h
    simp [performOp, classifyResponse, h]
  · rfl

/-- C5: the derived operations are exactly the stated compositions of the
primitive update operations: archive and unarchive set only the closed
flag, and moveCard sets the destination list and, when supplied, the
board of an otherwise empty card update. -/
theorem derived_operations_are_update_compositions (creds : TenantCredentials)
    (listId cardId idList : String) (idBoard : Option String) :
    archiveList creds listId = updateList creds listId { closed := some true }
      ∧ unarchiveList creds listId = updateList creds listId { closed := some false }
      ∧ archiveCard creds cardId = updateCard creds cardId { closed := some true }
      ∧ unarchiveCard creds cardId = updateCard creds cardId { closed := some false }
      ∧ moveCard creds cardId idList idBoard
          = updateCard creds cardId { idList := some idList, idBoard := idBoard } := by
  refine ⟨rfl, rfl, rfl, rfl, ?_⟩
  cases idBoard with
  | none => rfl
  | some s =>
    by_cases hs : s = ""
    · subst hs
      simp [moveCard, updateCard, updateCardParams, ifTruthy]
    · simp [moveCard, hs]

/-- C7: every list-style read with a status filter sends `filter=open`
when the argument is omitted and `filter=all` when `all` is passed; the
full outbound query is the credentials plus that one parameter, so the
client applies no further status-based exclusion. -/
theorem status_filter_default_open_and_all (creds : TenantCredentials)
    (idOrUsername boardId listId orgId : String) :
    (getMemberBoards creds idOrUsername none).query
        = [("key", creds.apiKey), ("token", creds.token), ("filter", "open")]
      ∧ (getMemberBoards creds idOrUsername (some .fAll)).query
          = [("key", creds.apiKey), ("token", creds.token), ("filter", "all")]
      ∧ (listBoards creds none).query
          = [("key", creds.apiKey), ("token", creds.token), ("filter", "open")]
      ∧ (listBoards creds (some .fAll)).query
          = [("key", creds.apiKey), ("token", creds.token), ("filter", "all")]
      ∧ (getBoardLists creds boardId none).query
          = [("key", creds.apiKey), ("token", creds.token), ("filter", "open")]
      ∧ (getBoardLists creds boardId (some .fAll)).query
          = [("key", creds.apiKey), ("token", creds.token), ("filter", "all")]
      ∧ (getBoardCards creds boardId none).query
          = [("key", creds.apiKey), ("token", creds.token), ("filter", "open")]
      ∧ (getBoardCards creds boardId (some .fAll)).query
          = [("key", creds.apiKey), ("token", creds.token), ("filter", "all")]
      ∧ (getListCards creds listId none).query
          = [("key", creds.apiKey), ("token", creds.token), ("filter", "open")]
      ∧ (getListCards creds listId (some .fAll)).query
          = [("key", creds.apiKey), ("token", creds.token), ("filter", "all")]
      ∧ (getOrganizationBoards creds orgId none).query
          = [("key", creds.apiKey), ("token", creds.token), ("filter", "open")]
      ∧ (getOrganizationBoards creds orgId (some .fAll)).query
          = [("key", creds.apiKey), ("token", creds.token), ("filter", "all")] :=
  ⟨rfl, rfl, rfl, rfl, rfl, rfl, rfl, rfl, rfl, rfl, rfl, rfl⟩

/-- C8: markdown rendering of a board list shows the explicit no-items
message for an empty input, and otherwise renders heading, count and a
table whose body holds one row per entity in input order, each row
carrying the name and the identifier of its entity. -/
theorem boards_markdown_includes_all_entities (bs : List TrelloBoard) (b : TrelloBoard) :
    formatBoardsArrayAsMarkdown [] = "## Boards\n\n_No items found._"
      ∧ formatBoardsArrayAsMarkdown (b :: bs)
          = String.intercalate "\n"
              ["## Boards", "**Count:** " ++ toString (b :: bs).length, "",
                formatBoardsTable (b :: bs)]
      ∧ boardsTableLines bs
          = ["| Name | ID | Status | URL |", "|---|---|---|---|"] ++ bs.map boardRow
      ∧ (bs.map boardRow).length = bs.length
      ∧ ∃ p q r, boardRow b = p ++ b.name ++ q ++ b.id ++ r := by
  refine ⟨rfl, ?_, rfl, by simp, ?_⟩
  · unfold formatBoardsArrayAsMarkdown
    rw [if_neg (by simp)]
    rfl
  · refine ⟨"| ", " | `",
      "` | " ++ (if b.closed then "Closed" else "Open") ++ " | " ++ b.shortUrl ++ " |", ?_⟩
    simp [boardRow, String.append_assoc]

/-- C9: checklist markdown rendering heads each checklist with a
completed/total count in which completed is the number of check items in
state complete and total the number of check items, and renders every
check item as a checked entry exactly when its state is complete and as
an unchecked entry otherwise. -/
theorem checklist_markdown_counts_and_checkboxes (cls : List TrelloChecklist)
    (c : TrelloChecklist) (i it : TrelloCheckItem) (rest : List TrelloCheckItem) :
    formatChecklistsTable cls = String.intercalate "\n" (cls.flatMap checklistBlock)
      ∧ (checklistBlock c).head? = some (checklistHeading c)
      ∧ checklistHeading c
          = "### " ++ escapeMarkdown c.name ++ " ("
              ++ toString (c.checkItems.countP (fun x => x.state == CheckItemState.complete))
              ++ "/" ++ toString c.checkItems.length ++ ")"
      ∧ checklistBlock { id := c.id, name := c.name, checkItems := it :: rest }
          = [checklistHeading { id := c.id, name := c.name, checkItems := it :: rest },
              "**ID:** `" ++ c.id ++ "`", ""] ++ (it :: rest).map checkItemLine ++ [""]
      ∧ checklistBlock { id := c.id, name := c.name, checkItems := [] }
          = [checklistHeading { id := c.id, name := c.name, checkItems := [] },
              "**ID:** `" ++ c.id ++ "`", "", "_No items_", ""]
      ∧ ((i.state = CheckItemState.complete
            ∧ checkItemLine i = "- [x] " ++ escapeMarkdown i.name)
          ∨ (i.state = CheckItemState.incomplete
            ∧ checkItemLine i = "- [ ] " ++ escapeMarkdown i.name)) := by
  refine ⟨rfl, rfl, ?_, ?_, rfl, ?_⟩
  · rw [checklistHeading, completedCount, List.countP_eq_length_filter]
  · simp [checklistBlock]
  · cases hstate : i.state with
    | complete =>
      left
      refine ⟨rfl, ?_⟩
      simp only [checkItemLine, checkItemBox, hstate]
      rfl
    | incomplete =>
      right
      refine ⟨rfl, ?_⟩
      simp only [checkItemLine, checkItemBox, hstate]
      rfl

/-- Parsing a string of digits yields the value of those digits: on such
input `parseInt` skips nothing, reads no sign, and consumes every
character. -/
lemma jsParseInt_digits {c : Char} {rest : List Char}
    (hall : ∀ x ∈ c :: rest, x.isDigit = true) :
    jsParseInt (String.mk (c :: rest)) = some ((digitsVal (c :: rest) : Nat) : Int) := by
  have hc : c.isDigit = true := hall c (List.mem_cons_self _ _)
  have hsp : ¬ c = ' ' := by
    intro h
    rw [h] at hc
    exact absurd hc (by decide)
  have hmi : ¬ c = '-' := by
    intro h
    rw [h] at hc
    exact absurd hc (by decide)
  have hpl : ¬ c = '+' := by
    intro h
    rw [h] at hc
    exact absurd hc (by decide)
  unfold jsParseInt
  have hdata : (String.mk (c :: rest)).data = c :: rest := rfl
  rw [hdata, List.dropWhile_cons, if_neg (by simp [hsp])]
  simp only [jsParseIntChars]
  rw [if_neg hmi, if_neg hpl]
  unfold digitsParse
  rw [List.takeWhile_eq_self_iff.mpr hall]
  rw [if_neg (by simp)]
  rfl

/-- C4: every client operation turns a 429 upstream response into a
retryable RateLimitError whose advisory delay is the value of the
Retry-After header when that header holds a number, and 60 seconds when
the header is absent. -/
theorem rate_limit_classification_delay (op : Request) (r : HttpResponse) (s : String) (n : Nat) :
    (r.status = 429 →
        performOp op r
            = Except.error (ClientError.rateLimitError "Rate limit exceeded"
                (retryAfterOf r.retryAfterHeader))
          ∧ (ClientError.rateLimitError "Rate limit exceeded"
                (retryAfterOf r.retryAfterHeader)).retryable = true)
      ∧ retryAfterOf none = some 60
      ∧ (decimalNat s = some n → retryAfterOf (some s) = some (n : Int)) := by
  refine ⟨?_, rfl, ?_⟩
  · intro h
    exact ⟨by simp [performOp, classifyResponse, h], rfl⟩
  · intro h
    unfold decimalNat at h
    by_cases hcond : s.data ≠ [] ∧ s.data.all Char.isDigit
    · rw [if_pos hcond] at h
      obtain ⟨hne, hall⟩ := hcond
      have hv : n = digitsVal s.data := (Option.some.inj h).symm
      obtain ⟨data⟩ := s
      cases hd : data with
      | nil => exact absurd hd hne
      | cons c rest =>
        subst hd
        have hsne : (String.mk (c :: rest)) ≠ "" := by
          intro hx
          exact hne (congrArg String.data hx)
        simp only [retryAfterOf]
        rw [if_neg hsne]
        rw [jsParseInt_digits (by simpa [List.all_eq_true] using hall)]
        rw [hv]
    · rw [if_neg hcond] at h
      exact absurd h (by simp)

/-- A member of a truthiness-guarded chunk carries that chunk's key, and
the guarded field was supplied. -/
lemma ifTruthy_mem_key {p : String × String} {k : String} {o : Option String}
    (h : p ∈ ifTruthy k o) : p.1 = k ∧ o ≠ none := by
  cases o with
  | none => exact absurd h (by simp [ifTruthy])
  | some s =>
    by_cases hs : s = ""
    · exact absurd h (by simp [ifTruthy, hs])
    · have hps : p = (k, s) := by simpa [ifTruthy, hs] using h
      exact ⟨by rw [hps], by simp⟩

/-- A member of a defined-string chunk carries that chunk's key, and the
guarded field was supplied. -/
lemma ifDefinedStr_mem_key {p : String × String} {k : String} {o : Option String}
    (h : p ∈ ifDefinedStr k o) : p.1 = k ∧ o ≠ none := by
  cases o with
  | none => exact absurd h (by simp [ifDefinedStr])
  | some s =>
    have hps : p = (k, s) := by simpa [ifDefinedStr] using h
    exact ⟨by rw [hps], by simp⟩

/-- A member of a defined-boolean chunk carries that chunk's key, and the
guarded field was supplied. -/
lemma ifDefinedBool_mem_key {p : String × String} {k : String} {o : Option Bool}
    (h : p ∈ ifDefinedBool k o) : p.1 = k ∧ o ≠ none := by
  cases o with
  | none => exact absurd h (by simp [ifDefinedBool])
  | some b =>
    have hps : p = (k, boolStr b) := by simpa [ifDefinedBool] using h
    exact ⟨by rw [hps], by simp⟩

/-- A member of a defined-position chunk carries that chunk's key, and the
guarded field was supplied. -/
lemma ifDefinedPos_mem_key {p : String × String} {k : String} {o : Option TrelloPos}
    (h : p ∈ ifDefinedPos k o) : p.1 = k ∧ o ≠ none := by
  cases o with
  | none => exact absurd h (by simp [ifDefinedPos])
  | some x =>
    have hps : p = (k, posStr x) := by simpa [ifDefinedPos] using h
    exact ⟨by rw [hps], by simp⟩

/-- A member of a nullable-clearable chunk carries that chunk's key, and
the guarded field was supplied. -/
lemma ifDefinedNullable_mem_key {p : String × String} {k : String} {o : Option (Option String)}
    (h : p ∈ ifDefinedNullable k o) : p.1 = k ∧ o ≠ none := by
  cases o with
  | none => exact absurd h (by simp [ifDefinedNullable])
  | some v =>
    cases v with
    | none =>
      have hps : p = (k, "") := by simpa [ifDefinedNullable] using h
      exact ⟨by rw [hps], by simp⟩
    | some s =>
      have hps : p = (k, s) := by simpa [ifDefinedNullable] using h
      exact ⟨by rw [hps], by simp⟩

/-- A member of a nonempty-list chunk carries that chunk's key, and the
guarded field was supplied. -/
lemma ifNonemptyList_mem_key {p : String × String} {k : String} {o : Option (List String)}
    (h : p ∈ ifNonemptyList k o) : p.1 = k ∧ o ≠ none := by
  cases o with
  | none => exact absurd h (by simp [ifNonemptyList])
  | some l =>
    by_cases hl : l.isEmpty
    · exact absurd h (by simp [ifNonemptyList, hl])
    · have hps : p = (k, String.intercalate "," l) := by simpa [ifNonemptyList, hl] using h
      exact ⟨by rw [hps], by simp⟩

/-- A member of an or-empty chunk carries that chunk's key, and the
guarded field was supplied. -/
lemma ifDefinedOrEmpty_mem_key {p : String × String} {k : String} {o : Option (Option String)}
    (h : p ∈ ifDefinedOrEmpty k o) : p.1 = k ∧ o ≠ none := by
  cases o with
  | none => exact absurd h (by simp [ifDefinedOrEmpty])
  | some v =>
    cases v with
    | none =>
      have hps : p = (k, "") := by simpa [ifDefinedOrEmpty] using h
      exact ⟨by rw [hps], by simp⟩
    | some s =>
      have hps : p = (k, s) := by simpa [ifDefinedOrEmpty] using h
      exact ⟨by rw [hps], by simp⟩

/-- A key that names no entry of the operation's parameter record and is
not a credential key is absent from the outbound query. -/
lemma keyAbsent_request (creds : TenantCredentials) (endpoint : String) (m : HttpMethod)
    (ps : List (String × String)) (body : Option String) (k : String)
    (hk1 : k ≠ "key") (hk2 : k ≠ "token") (h : ∀ p ∈ ps, p.1 ≠ k) :
    keyAbsent (request creds endpoint m (strParams ps) body) k := by
  intro v hv
  have hv' : (k, v) ∈ buildQuery [("key", creds.apiKey), ("token", creds.token)] (strParams ps) :=
    hv
  rcases mem_buildQuery hv' with hb | ⟨hm, _⟩
  · rcases List.mem_cons.mp hb with h1 | h1
    · exact hk1 (congrArg Prod.fst h1)
    · rcases List.mem_cons.mp h1 with h2 | h2
      · exact hk2 (congrArg Prod.fst h2)
      · exact absurd h2 (List.not_mem_nil _)
  · obtain ⟨p, hp, he⟩ := List.mem_map.mp hm
    exact h p hp (congrArg Prod.fst he)

/-- Membership in the createCard parameter record comes from one of its
chunks, listed in source order. -/
lemma createCardParams_cases {input : TrelloCardCreateInput} {p : String × String}
    (hp : p ∈ createCardParams input) :
    p = ("idList", input.idList) ∨ p = ("name", input.name)
      ∨ p ∈ ifTruthy "desc" input.desc
      ∨ p ∈ ifDefinedPos "pos" input.pos
      ∨ p ∈ ifTruthy "due" input.due
      ∨ p ∈ ifTruthy "start" input.start
      ∨ p ∈ ifDefinedBool "dueComplete" input.dueComplete
      ∨ p ∈ ifNonemptyList "idMembers" input.idMembers
      ∨ p ∈ ifNonemptyList "idLabels" input.idLabels
      ∨ p ∈ ifTruthy "urlSource" input.urlSource
      ∨ p ∈ ifTruthy "idCardSource" input.idCardSource
      ∨ p ∈ ifTruthy "keepFromSource" input.keepFromSource
      ∨ p ∈ ifTruthy "address" input.address
      ∨ p ∈ ifTruthy "locationName" input.locationName
      ∨ p ∈ ifTruthy "coordinates" input.coordinates := by
  simpa [createCardParams, or_assoc] using hp

/-- Membership in the updateCard parameter record comes from one of its
chunks, listed in source order. -/
lemma updateCardParams_cases {input : TrelloCardUpdateInput} {p : String × String}
    (hp : p ∈ updateCardParams input) :
    p ∈ ifTruthy "name" input.name
      ∨ p ∈ ifDefinedStr "desc" input.desc
      ∨ p ∈ ifDefinedBool "closed" input.closed
      ∨ p ∈ ifTruthy "idList" input.idList
      ∨ p ∈ ifTruthy "idBoard" input.idBoard
      ∨ p ∈ ifDefinedPos "pos" input.pos
      ∨ p ∈ ifDefinedNullable "due" input.due
      ∨ p ∈ ifDefinedNullable "start" input.start
      ∨ p ∈ ifDefinedBool "dueComplete" input.dueComplete
      ∨ p ∈ ifDefinedBool "subscribed" input.subscribed := by
  simpa [updateCardParams, or_assoc] using hp

/-- Membership in the createBoard parameter record comes from one of its
chunks, listed in source order. -/
lemma createBoardParams_cases {input : TrelloBoardCreateInput} {p : String × String}
    (hp : p ∈ createBoardParams input) :
    p = ("name", input.name)
      ∨ p ∈ ifTruthy "desc" input.desc
      ∨ p ∈ ifTruthy "idOrganization" input.idOrganization
      ∨ p ∈ ifTruthy "idBoardSource" input.idBoardSource
      ∨ p ∈ ifTruthy "keepFromSource" input.keepFromSource
      ∨ p ∈ ifTruthy "powerUps" input.powerUps
      ∨ p ∈ ifTruthy "prefs_permissionLevel" input.prefs_permissionLevel
      ∨ p ∈ ifTruthy "prefs_voting" input.prefs_voting
      ∨ p ∈ ifTruthy "prefs_comments" input.prefs_comments
      ∨ p ∈ ifTruthy "prefs_invitations" input.prefs_invitations
      ∨ p ∈ ifDefinedBool "prefs_selfJoin" input.prefs_selfJoin
      ∨ p ∈ ifDefinedBool "prefs_cardCovers" input.prefs_cardCovers
      ∨ p ∈ ifTruthy "prefs_background" input.prefs_background
      ∨ p ∈ ifTruthy "prefs_cardAging" input.prefs_cardAging
      ∨ p ∈ ifDefinedBool "defaultLabels" input.defaultLabels
      ∨ p ∈ ifDefinedBool "defaultLists" input.defaultLists := by
  simpa [createBoardParams, or_assoc] using hp

/-- Every omitted optional field of a createBoard input leaves its key out
of the outbound query. -/
lemma createBoard_omitted_fields_absent (creds : TenantCredentials)
    (input : TrelloBoardCreateInput) :
    (input.desc = none → keyAbsent (createBoard creds input) "desc")
      ∧ (input.idOrganization = none → keyAbsent (createBoard creds input) "idOrganization")
      ∧ (input.idBoardSource = none → keyAbsent (createBoard creds input) "idBoardSource")
      ∧ (input.keepFromSource = none → keyAbsent (createBoard creds input) "keepFromSource")
      ∧ (input.powerUps = none → keyAbsent (createBoard creds input) "powerUps")
      ∧ (input.prefs_permissionLevel = none → keyAbsent (createBoard creds input) "prefs_permissionLevel")
      ∧ (input.prefs_voting = none → keyAbsent (createBoard creds input) "prefs_voting")
      ∧ (input.prefs_comments = none → keyAbsent (createBoard creds input) "prefs_comments")
      ∧ (input.prefs_invitations = none → keyAbsent (createBoard creds input) "prefs_invitations")
      ∧ (input.prefs_selfJoin = none → keyAbsent (createBoard creds input) "prefs_selfJoin")
      ∧ (input.prefs_cardCovers = none → keyAbsent (createBoard creds input) "prefs_cardCovers")
      ∧ (input.prefs_background = none → keyAbsent (createBoard creds input) "prefs_background")
      ∧ (input.prefs_cardAging = none → keyAbsent (createBoard creds input) "prefs_cardAging")
      ∧ (input.defaultLabels = none → keyAbsent (createBoard creds input) "defaultLabels")
      ∧ (input.defaultLists = none → keyAbsent (createBoard creds input) "defaultLists") := by
  refine ⟨?_, ?_, ?_, ?_, ?_, ?_, ?_, ?_, ?_, ?_, ?_, ?_, ?_, ?_, ?_⟩
  all_goals intro hf
  all_goals refine keyAbsent_request _ _ _ _ _ _ (by decide) (by decide) ?_
  all_goals intro p hp
  all_goals rcases createBoardParams_cases hp with h|h|h|h|h|h|h|h|h|h|h|h|h|h|h|h
  all_goals
    first
      | (rw [h]; simp; done)
      | (rw [(ifTruthy_mem_key h).1]; decide)
      | (rw [(ifDefinedStr_mem_key h).1]; decide)
      | (rw [(ifDefinedBool_mem_key h).1]; decide)
      | (rw [(ifDefinedPos_mem_key h).1]; decide)
      | (rw [(ifDefinedNullable_mem_key h).1]; decide)
      | (rw [(ifDefinedOrEmpty_mem_key h).1]; decide)
      | (rw [(ifNonemptyList_mem_key h).1]; decide)
      | exact absurd hf (ifTruthy_mem_key h).2
      | exact absurd hf (ifDefinedStr_mem_key h).2
      | exact absurd hf (ifDefinedBool_mem_key h).2
      | exact absurd hf (ifDefinedPos_mem_key h).2
      | exact absurd hf (ifDefinedNullable_mem_key h).2
      | exact absurd hf (ifDefinedOrEmpty_mem_key h).2
      | exact absurd hf (ifNonemptyList_mem_key h).2

/-- Membership in the updateBoard parameter record comes from one of its
chunks, listed in source order. -/
lemma updateBoardParams_cases {input : TrelloBoardUpdateInput} {p : String × String}
    (hp : p ∈ updateBoardParams input) :
    p ∈ ifTruthy "name" input.name
      ∨ p ∈ ifDefinedStr "desc" input.desc
      ∨ p ∈ ifDefinedBool "closed" input.closed
      ∨ p ∈ ifDefinedBool "subscribed" input.subscribed
      ∨ p ∈ ifTruthy "idOrganization" input.idOrganization
      ∨ p ∈ ifTruthy "prefs/permissionLevel" input.prefs_permissionLevel
      ∨ p ∈ ifDefinedBool "prefs/selfJoin" input.prefs_selfJoin
      ∨ p ∈ ifDefinedBool "prefs/cardCovers" input.prefs_cardCovers
      ∨ p ∈ ifDefinedBool "prefs/hideVotes" input.prefs_hideVotes
      ∨ p ∈ ifTruthy "prefs/invitations" input.prefs_invitations
      ∨ p ∈ ifTruthy "prefs/voting" input.prefs_voting
      ∨ p ∈ ifTruthy "prefs/comments" input.prefs_comments
      ∨ p ∈ ifTruthy "prefs/background" input.prefs_background
      ∨ p ∈ ifTruthy "prefs/cardAging" input.prefs_cardAging
      ∨ p ∈ ifDefinedBool "prefs/calendarFeedEnabled" input.prefs_calendarFeedEnabled
      ∨ p ∈ ifTruthy "labelNames/green" input.labelNames_green
      ∨ p ∈ ifTruthy "labelNames/yellow" input.labelNames_yellow
      ∨ p ∈ ifTruthy "labelNames/orange" input.labelNames_orange
      ∨ p ∈ ifTruthy "labelNames/red" input.labelNames_red
      ∨ p ∈ ifTruthy "labelNames/purple" input.labelNames_purple
      ∨ p ∈ ifTruthy "labelNames/blue" input.labelNames_blue := by
  simpa [updateBoardParams, or_assoc] using hp

/-- Every omitted optional field of a updateBoard input leaves its key out
of the outbound query. -/
lemma updateBoard_omitted_fields_absent (creds : TenantCredentials) (boardId : String)
    (input : TrelloBoardUpdateInput) :
    (input.name = none → keyAbsent (updateBoard creds boardId input) "name")
      ∧ (input.desc = none → keyAbsent (updateBoard creds boardId input) "desc")
      ∧ (input.closed = none → keyAbsent (updateBoard creds boardId input) "closed")
      ∧ (input.subscribed = none → keyAbsent (updateBoard creds boardId input) "subscribed")
      ∧ (input.idOrganization = none → keyAbsent (updateBoard creds boardId input) "idOrganization")
      ∧ (input.prefs_permissionLevel = none → keyAbsent (updateBoard creds boardId input) "prefs/permissionLevel")
      ∧ (input.prefs_selfJoin = none → keyAbsent (updateBoard creds boardId input) "prefs/selfJoin")
      ∧ (input.prefs_cardCovers = none → keyAbsent (updateBoard creds boardId input) "prefs/cardCovers")
      ∧ (input.prefs_hideVotes = none → keyAbsent (updateBoard creds boardId input) "prefs/hideVotes")
      ∧ (input.prefs_invitations = none → keyAbsent (updateBoard creds boardId input) "prefs/invitations")
      ∧ (input.prefs_voting = none → keyAbsent (updateBoard creds boardId input) "prefs/voting")
      ∧ (input.prefs_comments = none → keyAbsent (updateBoard creds boardId input) "prefs/comments")
      ∧ (input.prefs_background = none → keyAbsent (updateBoard creds boardId input) "prefs/background")
      ∧ (input.prefs_cardAging = none → keyAbsent (updateBoard creds boardId input) "prefs/cardAging")
      ∧ (input.prefs_calendarFeedEnabled = none → keyAbsent (updateBoard creds boardId input) "prefs/calendarFeedEnabled")
      ∧ (input.labelNames_green = none → keyAbsent (updateBoard creds boardId input) "labelNames/green")
      ∧ (input.labelNames_yellow = none → keyAbsent (updateBoard creds boardId input) "labelNames/yellow")
      ∧ (input.labelNames_orange = none → keyAbsent (updateBoard creds boardId input) "labelNames/orange")
      ∧ (input.labelNames_red = none → keyAbsent (updateBoard creds boardId input) "labelNames/red")
      ∧ (input.labelNames_purple = none → keyAbsent (updateBoard creds boardId input) "labelNames/purple")
      ∧ (input.labelNames_blue = none → keyAbsent (updateBoard creds boardId input) "labelNames/blue") := by
  refine ⟨?_, ?_, ?_, ?_, ?_, ?_, ?_, ?_, ?_, ?_, ?_, ?_, ?_, ?_, ?_, ?_, ?_, ?_, ?_, ?_, ?_⟩
  all_goals intro hf
  all_goals refine keyAbsent_request _ _ _ _ _ _ (by decide) (by decide) ?_
  all_goals intro p hp
  all_goals rcases updateBoardParams_cases hp with h|h|h|h|h|h|h|h|h|h|h|h|h|h|h|h|h|h|h|h|h
  all_goals
    first
      | (rw [h]; simp; done)
      | (rw [(ifTruthy_mem_key h).1]; decide)
      | (rw [(ifDefinedStr_mem_key h).1]; decide)
      | (rw [(ifDefinedBool_mem_key h).1]; decide)
      | (rw [(ifDefinedPos_mem_key h).1]; decide)
      | (rw [(ifDefinedNullable_mem_key h).1]; decide)
      | (rw [(ifDefinedOrEmpty_mem_key h).1]; decide)
      | (rw [(ifNonemptyList_mem_key h).1]; decide)
      | exact absurd hf (ifTruthy_mem_key h).2
      | exact absurd hf (ifDefinedStr_mem_key h).2
      | exact absurd hf (ifDefinedBool_mem_key h).2
      | exact absurd hf (ifDefinedPos_mem_key h).2
      | exact absurd hf (ifDefinedNullable_mem_key h).2
      | exact absurd hf (ifDefinedOrEmpty_mem_key h).2
      | exact absurd hf (ifNonemptyList_mem_key h).2

/-- Membership in the createList parameter record comes from one of its
chunks, listed in source order. -/
lemma createListParams_cases {input : TrelloListCreateInput} {p : String × String}
    (hp : p ∈ createListParams input) :
    p = ("name", input.name)
      ∨ p = ("idBoard", input.idBoard)
      ∨ p ∈ ifTruthy "idListSource" input.idListSource
      ∨ p ∈ ifDefinedPos "pos" input.pos := by
  simpa [createListParams, or_assoc] using hp

/-- Every omitted optional field of a createList input leaves its key out
of the outbound query. -/
lemma createList_omitted_fields_absent (creds : TenantCredentials)
    (input : TrelloListCreateInput) :
    (input.idListSource = none → keyAbsent (createList creds input) "idListSource")
      ∧ (input.pos = none → keyAbsent (createList creds input) "pos") := by
  refine ⟨?_, ?_⟩
  all_goals intro hf
  all_goals refine keyAbsent_request _ _ _ _ _ _ (by decide) (by decide) ?_
  all_goals intro p hp
  all_goals rcases createListParams_cases hp with h|h|h|h
  all_goals
    first
      | (rw [h]; simp; done)
      | (rw [(ifTruthy_mem_key h).1]; decide)
      | (rw [(ifDefinedStr_mem_key h).1]; decide)
      | (rw [(ifDefinedBool_mem_key h).1]; decide)
      | (rw [(ifDefinedPos_mem_key h).1]; decide)
      | (rw [(ifDefinedNullable_mem_key h).1]; decide)
      | (rw [(ifDefinedOrEmpty_mem_key h).1]; decide)
      | (rw [(ifNonemptyList_mem_key h).1]; decide)
      | exact absurd hf (ifTruthy_mem_key h).2
      | exact absurd hf (ifDefinedStr_mem_key h).2
      | exact absurd hf (ifDefinedBool_mem_key h).2
      | exact absurd hf (ifDefinedPos_mem_key h).2
      | exact absurd hf (ifDefinedNullable_mem_key h).2
      | exact absurd hf (ifDefinedOrEmpty_mem_key h).2
      | exact absurd hf (ifNonemptyList_mem_key h).2

/-- Membership in the createLabel parameter record comes from one of its
chunks, listed in source order. -/
lemma createLabelParams_cases {input : TrelloLabelCreateInput} {p : String × String}
    (hp : p ∈ createLabelParams input) :
    p = ("name", input.name)
      ∨ p = ("idBoard", input.idBoard)
      ∨ p ∈ ifTruthy "color" input.color := by
  simpa [createLabelParams, or_assoc] using hp

/-- Every omitted optional field of a createLabel input leaves its key out
of the outbound query. -/
lemma createLabel_omitted_fields_absent (creds : TenantCredentials)
    (input : TrelloLabelCreateInput) :
    (input.color = none → keyAbsent (createLabel creds input) "color") := by
  all_goals intro hf
  all_goals refine keyAbsent_request _ _ _ _ _ _ (by decide) (by decide) ?_
  all_goals intro p hp
  all_goals rcases createLabelParams_cases hp with h|h|h
  all_goals
    first
      | (rw [h]; simp; done)
      | (rw [(ifTruthy_mem_key h).1]; decide)
      | (rw [(ifDefinedStr_mem_key h).1]; decide)
      | (rw [(ifDefinedBool_mem_key h).1]; decide)
      | (rw [(ifDefinedPos_mem_key h).1]; decide)
      | (rw [(ifDefinedNullable_mem_key h).1]; decide)
      | (rw [(ifDefinedOrEmpty_mem_key h).1]; decide)
      | (rw [(ifNonemptyList_mem_key h).1]; decide)
      | exact absurd hf (ifTruthy_mem_key h).2
      | exact absurd hf (ifDefinedStr_mem_key h).2
      | exact absurd hf (ifDefinedBool_mem_key h).2
      | exact absurd hf (ifDefinedPos_mem_key h).2
      | exact absurd hf (ifDefinedNullable_mem_key h).2
      | exact absurd hf (ifDefinedOrEmpty_mem_key h).2
      | exact absurd hf (ifNonemptyList_mem_key h).2

/-- Membership in the updateLabel parameter record comes from one of its
chunks, listed in source order. -/
lemma updateLabelParams_cases {input : TrelloLabelUpdateInput} {p : String × String}
    (hp : p ∈ updateLabelParams input) :
    p ∈ ifDefinedStr "name" input.name
      ∨ p ∈ ifDefinedOrEmpty "color" input.color := by
  simpa [updateLabelParams, or_assoc] using hp

/-- Every omitted optional field of a updateLabel input leaves its key out
of the outbound query. -/
lemma updateLabel_omitted_fields_absent (creds : TenantCredentials) (labelId : String)
    (input : TrelloLabelUpdateInput) :
    (input.name = none → keyAbsent (updateLabel creds labelId input) "name")
      ∧ (input.color = none → keyAbsent (updateLabel creds labelId input) "color") := by
  refine ⟨?_, ?_⟩
  all_goals intro hf
  all_goals refine keyAbsent_request _ _ _ _ _ _ (by decide) (by decide) ?_
  all_goals intro p hp
  all_goals rcases updateLabelParams_cases hp with h|h
  all_goals
    first
      | (rw [h]; simp; done)
      | (rw [(ifTruthy_mem_key h).1]; decide)
      | (rw [(ifDefinedStr_mem_key h).1]; decide)
      | (rw [(ifDefinedBool_mem_key h).1]; decide)
      | (rw [(ifDefinedPos_mem_key h).1]; decide)
      | (rw [(ifDefinedNullable_mem_key h).1]; decide)
      | (rw [(ifDefinedOrEmpty_mem_key h).1]; decide)
      | (rw [(ifNonemptyList_mem_key h).1]; decide)
      | exact absurd hf (ifTruthy_mem_key h).2
      | exact absurd hf (ifDefinedStr_mem_key h).2
      | exact absurd hf (ifDefinedBool_mem_key h).2
      | exact absurd hf (ifDefinedPos_mem_key h).2
      | exact absurd hf (ifDefinedNullable_mem_key h).2
      | exact absurd hf (ifDefinedOrEmpty_mem_key h).2
      | exact absurd hf (ifNonemptyList_mem_key h).2

/-- Membership in the createChecklist parameter record comes from one of its
chunks, listed in source order. -/
lemma createChecklistParams_cases {input : TrelloChecklistCreateInput} {p : String × String}
    (hp : p ∈ createChecklistParams input) :
    p = ("idCard", input.idCard)
      ∨ p ∈ ifTruthy "name" input.name
      ∨ p ∈ ifDefinedPos "pos" input.pos
      ∨ p ∈ ifTruthy "idChecklistSource" input.idChecklistSource := by
  simpa [createChecklistParams, or_assoc] using hp

/-- Every omitted optional field of a createChecklist input leaves its key out
of the outbound query. -/
lemma createChecklist_omitted_fields_absent (creds : TenantCredentials)
    (input : TrelloChecklistCreateInput) :
    (input.name = none → keyAbsent (createChecklist creds input) "name")
      ∧ (input.pos = none → keyAbsent (createChecklist creds input) "pos")
      ∧ (input.idChecklistSource = none → keyAbsent (createChecklist creds input) "idChecklistSource") := by
  refine ⟨?_, ?_, ?_⟩
  all_goals intro hf
  all_goals refine keyAbsent_request _ _ _ _ _ _ (by decide) (by decide) ?_
  all_goals intro p hp
  all_goals rcases createChecklistParams_cases hp with h|h|h|h
  all_goals
    first
      | (rw [h]; simp; done)
      | (rw [(ifTruthy_mem_key h).1]; decide)
      | (rw [(ifDefinedStr_mem_key h).1]; decide)
      | (rw [(ifDefinedBool_mem_key h).1]; decide)
      | (rw [(ifDefinedPos_mem_key h).1]; decide)
      | (rw [(ifDefinedNullable_mem_key h).1]; decide)
      | (rw [(ifDefinedOrEmpty_mem_key h).1]; decide)
      | (rw [(ifNonemptyList_mem_key h).1]; decide)
      | exact absurd hf (ifTruthy_mem_key h).2
      | exact absurd hf (ifDefinedStr_mem_key h).2
      | exact absurd hf (ifDefinedBool_mem_key h).2
      | exact absurd hf (ifDefinedPos_mem_key h).2
      | exact absurd hf (ifDefinedNullable_mem_key h).2
      | exact absurd hf (ifDefinedOrEmpty_mem_key h).2
      | exact absurd hf (ifNonemptyList_mem_key h).2

/-- Membership in the createCheckItem parameter record comes from one of its
chunks, listed in source order. -/
lemma createCheckItemParams_cases {input : TrelloCheckItemCreateInput} {p : String × String}
    (hp : p ∈ createCheckItemParams input) :
    p = ("name", input.name)
      ∨ p ∈ ifDefinedPos "pos" input.pos
      ∨ p ∈ ifDefinedBool "checked" input.checked
      ∨ p ∈ ifTruthy "due" input.due
      ∨ p ∈ ifTruthy "idMember" input.idMember := by
  simpa [createCheckItemParams, or_assoc] using hp

/-- Every omitted optional field of a createCheckItem input leaves its key out
of the outbound query. -/
lemma createCheckItem_omitted_fields_absent (creds : TenantCredentials) (checklistId : String)
    (input : TrelloCheckItemCreateInput) :
    (input.pos = none → keyAbsent (createCheckItem creds checklistId input) "pos")
      ∧ (input.checked = none → keyAbsent (createCheckItem creds checklistId input) "checked")
      ∧ (input.due = none → keyAbsent (createCheckItem creds checklistId input) "due")
      ∧ (input.idMember = none → keyAbsent (createCheckItem creds checklistId input) "idMember") := by
  refine ⟨?_, ?_, ?_, ?_⟩
  all_goals intro hf
  all_goals refine keyAbsent_request _ _ _ _ _ _ (by decide) (by decide) ?_
  all_goals intro p hp
  all_goals rcases createCheckItemParams_cases hp with h|h|h|h|h
  all_goals
    first
      | (rw [h]; simp; done)
      | (rw [(ifTruthy_mem_key h).1]; decide)
      | (rw [(ifDefinedStr_mem_key h).1]; decide)
      | (rw [(ifDefinedBool_mem_key h).1]; decide)
      | (rw [(ifDefinedPos_mem_key h).1]; decide)
      | (rw [(ifDefinedNullable_mem_key h).1]; decide)
      | (rw [(ifDefinedOrEmpty_mem_key h).1]; decide)
      | (rw [(ifNonemptyList_mem_key h).1]; decide)
      | exact absurd hf (ifTruthy_mem_key h).2
      | exact absurd hf (ifDefinedStr_mem_key h).2
      | exact absurd hf (ifDefinedBool_mem_key h).2
      | exact absurd hf (ifDefinedPos_mem_key h).2
      | exact absurd hf (ifDefinedNullable_mem_key h).2
      | exact absurd hf (ifDefinedOrEmpty_mem_key h).2
      | exact absurd hf (ifNonemptyList_mem_key h).2

/-- Membership in the createCustomField parameter record comes from one of its
chunks, listed in source order. -/
lemma createCustomFieldParams_cases {input : TrelloCustomFieldCreateInput} {p : String × String}
    (hp : p ∈ createCustomFieldParams input) :
    p = ("idModel", input.idModel)
      ∨ p = ("modelType", input.modelType)
      ∨ p = ("name", input.name)
      ∨ p = ("type", input.type)
      ∨ p ∈ ifDefinedPos "pos" input.pos
      ∨ p ∈ ifDefinedBool "display_cardFront" input.display_cardFront := by
  simpa [createCustomFieldParams, or_assoc] using hp

/-- Every omitted optional field of a createCustomField input leaves its key out
of the outbound query. -/
lemma createCustomField_omitted_fields_absent (creds : TenantCredentials)
    (input : TrelloCustomFieldCreateInput) :
    (input.pos = none → keyAbsent (createCustomField creds input) "pos")
      ∧ (input.display_cardFront = none → keyAbsent (createCustomField creds input) "display_cardFront") := by
  refine ⟨?_, ?_⟩
  all_goals intro hf
  all_goals refine keyAbsent_request _ _ _ _ _ _ (by decide) (by decide) ?_
  all_goals intro p hp
  all_goals rcases createCustomFieldParams_cases hp with h|h|h|h|h|h
  all_goals
    first
      | (rw [h]; simp; done)
      | (rw [(ifTruthy_mem_key h).1]; decide)
      | (rw [(ifDefinedStr_mem_key h).1]; decide)
      | (rw [(ifDefinedBool_mem_key h).1]; decide)
      | (rw [(ifDefinedPos_mem_key h).1]; decide)
      | (rw [(ifDefinedNullable_mem_key h).1]; decide)
      | (rw [(ifDefinedOrEmpty_mem_key h).1]; decide)
      | (rw [(ifNonemptyList_mem_key h).1]; decide)
      | exact absurd hf (ifTruthy_mem_key h).2
      | exact absurd hf (ifDefinedStr_mem_key h).2
      | exact absurd hf (ifDefinedBool_mem_key h).2
      | exact absurd hf (ifDefinedPos_mem_key h).2
      | exact absurd hf (ifDefinedNullable_mem_key h).2
      | exact absurd hf (ifDefinedOrEmpty_mem_key h).2
      | exact absurd hf (ifNonemptyList_mem_key h).2

/-- Membership in the updateCustomField parameter record comes from one of its
chunks, listed in source order. -/
lemma updateCustomFieldParams_cases {input : TrelloCustomFieldUpdateInput} {p : String × String}
    (hp : p ∈ updateCustomFieldParams input) :
    p ∈ ifTruthy "name" input.name
      ∨ p ∈ ifDefinedPos "pos" input.pos
      ∨ p ∈ ifDefinedBool "display/cardFront" input.display_cardFront := by
  simpa [updateCustomFieldParams, or_assoc] using hp

/-- Every omitted optional field of a updateCustomField input leaves its key out
of the outbound query. -/
lemma updateCustomField_omitted_fields_absent (creds : TenantCredentials) (customFieldId : String)
    (input : TrelloCustomFieldUpdateInput) :
    (input.name = none → keyAbsent (updateCustomField creds customFieldId input) "name")
      ∧ (input.pos = none → keyAbsent (updateCustomField creds customFieldId input) "pos")
      ∧ (input.display_cardFront = none → keyAbsent (updateCustomField creds customFieldId input) "display/cardFront") := by
  refine ⟨?_, ?_, ?_⟩
  all_goals intro hf
  all_goals refine keyAbsent_request _ _ _ _ _ _ (by decide) (by decide) ?_
  all_goals intro p hp
  all_goals rcases updateCustomFieldParams_cases hp with h|h|h
  all_goals
    first
      | (rw [h]; simp; done)
      | (rw [(ifTruthy_mem_key h).1]; decide)
      | (rw [(ifDefinedStr_mem_key h).1]; decide)
      | (rw [(ifDefinedBool_mem_key h).1]; decide)
      | (rw [(ifDefinedPos_mem_key h).1]; decide)
      | (rw [(ifDefinedNullable_mem_key h).1]; decide)
      | (rw [(ifDefinedOrEmpty_mem_key h).1]; decide)
      | (rw [(ifNonemptyList_mem_key h).1]; decide)
      | exact absurd hf (ifTruthy_mem_key h).2
      | exact absurd hf (ifDefinedStr_mem_key h).2
      | exact absurd hf (ifDefinedBool_mem_key h).2
      | exact absurd hf (ifDefinedPos_mem_key h).2
      | exact absurd hf (ifDefinedNullable_mem_key h).2
      | exact absurd hf (ifDefinedOrEmpty_mem_key h).2
      | exact absurd hf (ifNonemptyList_mem_key h).2

/-- Membership in the createOrganization parameter record comes from one of its
chunks, listed in source order. -/
lemma createOrganizationParams_cases {input : TrelloOrganizationCreateInput} {p : String × String}
    (hp : p ∈ createOrganizationParams input) :
    p = ("displayName", input.displayName)
      ∨ p ∈ ifTruthy "desc" input.desc
      ∨ p ∈ ifTruthy "name" input.name
      ∨ p ∈ ifTruthy "website" input.website := by
  simpa [createOrganizationParams, or_assoc] using hp

/-- Every omitted optional field of a createOrganization input leaves its key out
of the outbound query. -/
lemma createOrganization_omitted_fields_absent (creds : TenantCredentials)
    (input : TrelloOrganizationCreateInput) :
    (input.desc = none → keyAbsent (createOrganization creds input) "desc")
      ∧ (input.name = none → keyAbsent (createOrganization creds input) "name")
      ∧ (input.website = none → keyAbsent (createOrganization creds input) "website") := by
  refine ⟨?_, ?_, ?_⟩
  all_goals intro hf
  all_goals refine keyAbsent_request _ _ _ _ _ _ (by decide) (by decide) ?_
  all_goals intro p hp
  all_goals rcases createOrganizationParams_cases hp with h|h|h|h
  all_goals
    first
      | (rw [h]; simp; done)
      | (rw [(ifTruthy_mem_key h).1]; decide)
      | (rw [(ifDefinedStr_mem_key h).1]; decide)
      | (rw [(ifDefinedBool_mem_key h).1]; decide)
      | (rw [(ifDefinedPos_mem_key h).1]; decide)
      | (rw [(ifDefinedNullable_mem_key h).1]; decide)
      | (rw [(ifDefinedOrEmpty_mem_key h).1]; decide)
      | (rw [(ifNonemptyList_mem_key h).1]; decide)
      | exact absurd hf (ifTruthy_mem_key h).2
      | exact absurd hf (ifDefinedStr_mem_key h).2
      | exact absurd hf (ifDefinedBool_mem_key h).2
      | exact absurd hf (ifDefinedPos_mem_key h).2
      | exact absurd hf (ifDefinedNullable_mem_key h).2
      | exact absurd hf (ifDefinedOrEmpty_mem_key h).2
      | exact absurd hf (ifNonemptyList_mem_key h).2

/-- Membership in the updateOrganization parameter record comes from one of its
chunks, listed in source order. -/
lemma updateOrganizationParams_cases {input : TrelloOrganizationUpdateInput} {p : String × String}
    (hp : p ∈ updateOrganizationParams input) :
    p ∈ ifTruthy "name" input.name
      ∨ p ∈ ifTruthy "displayName" input.displayName
      ∨ p ∈ ifDefinedStr "desc" input.desc
      ∨ p ∈ ifDefinedStr "website" input.website
      ∨ p ∈ ifTruthy "prefs/permissionLevel" input.prefs_permissionLevel
      ∨ p ∈ ifTruthy "prefs/orgInviteRestrict" input.prefs_orgInviteRestrict
      ∨ p ∈ ifTruthy "prefs/boardVisibilityRestrict/private" input.prefs_boardVisibilityRestrict_private
      ∨ p ∈ ifTruthy "prefs/boardVisibilityRestrict/org" input.prefs_boardVisibilityRestrict_org
      ∨ p ∈ ifTruthy "prefs/boardVisibilityRestrict/public" input.prefs_boardVisibilityRestrict_public := by
  simpa [updateOrganizationParams, or_assoc] using hp

/-- Every omitted optional field of a updateOrganization input leaves its key out
of the outbound query. -/
lemma updateOrganization_omitted_fields_absent (creds : TenantCredentials) (orgId : String)
    (input : TrelloOrganizationUpdateInput) :
    (input.name = none → keyAbsent (updateOrganization creds orgId input) "name")
      ∧ (input.displayName = none → keyAbsent (updateOrganization creds orgId input) "displayName")
      ∧ (input.desc = none → keyAbsent (updateOrganization creds orgId input) "desc")
      ∧ (input.website = none → keyAbsent (updateOrganization creds orgId input) "website")
      ∧ (input.prefs_permissionLevel = none → keyAbsent (updateOrganization creds orgId input) "prefs/permissionLevel")
      ∧ (input.prefs_orgInviteRestrict = none → keyAbsent (updateOrganization creds orgId input) "prefs/orgInviteRestrict")
      ∧ (input.prefs_boardVisibilityRestrict_private = none → keyAbsent (updateOrganization creds orgId input) "prefs/boardVisibilityRestrict/private")
      ∧ (input.prefs_boardVisibilityRestrict_org = none → keyAbsent (updateOrganization creds orgId input) "prefs/boardVisibilityRestrict/org")
      ∧ (input.prefs_boardVisibilityRestrict_public = none → keyAbsent (updateOrganization creds orgId input) "prefs/boardVisibilityRestrict/public") := by
  refine ⟨?_, ?_, ?_, ?_, ?_, ?_, ?_, ?_, ?_⟩
  all_goals intro hf
  all_goals refine keyAbsent_request _ _ _ _ _ _ (by decide) (by decide) ?_
  all_goals intro p hp
  all_goals rcases updateOrganizationParams_cases hp with h|h|h|h|h|h|h|h|h
  all_goals
    first
      | (rw [h]; simp; done)
      | (rw [(ifTruthy_mem_key h).1]; decide)
      | (rw [(ifDefinedStr_mem_key h).1]; decide)
      | (rw [(ifDefinedBool_mem_key h).1]; decide)
      | (rw [(ifDefinedPos_mem_key h).1]; decide)
      | (rw [(ifDefinedNullable_mem_key h).1]; decide)
      | (rw [(ifDefinedOrEmpty_mem_key h).1]; decide)
      | (rw [(ifNonemptyList_mem_key h).1]; decide)
      | exact absurd hf (ifTruthy_mem_key h).2
      | exact absurd hf (ifDefinedStr_mem_key h).2
      | exact absurd hf (ifDefinedBool_mem_key h).2
      | exact absurd hf (ifDefinedPos_mem_key h).2
      | exact absurd hf (ifDefinedNullable_mem_key h).2
      | exact absurd hf (ifDefinedOrEmpty_mem_key h).2
      | exact absurd hf (ifNonemptyList_mem_key h).2

/-- Membership in the createWebhook parameter record comes from one of its
chunks, listed in source order. -/
lemma createWebhookParams_cases {input : TrelloWebhookCreateInput} {p : String × String}
    (hp : p ∈ createWebhookParams input) :
    p = ("callbackURL", input.callbackURL)
      ∨ p = ("idModel", input.idModel)
      ∨ p ∈ ifTruthy "description" input.description
      ∨ p ∈ ifDefinedBool "active" input.active := by
  simpa [createWebhookParams, or_assoc] using hp

/-- Every omitted optional field of a createWebhook input leaves its key out
of the outbound query. -/
lemma createWebhook_omitted_fields_absent (creds : TenantCredentials)
    (input : TrelloWebhookCreateInput) :
    (input.description = none → keyAbsent (createWebhook creds input) "description")
      ∧ (input.active = none → keyAbsent (createWebhook creds input) "active") := by
  refine ⟨?_, ?_⟩
  all_goals intro hf
  all_goals refine keyAbsent_request _ _ _ _ _ _ (by decide) (by decide) ?_
  all_goals intro p hp
  all_goals rcases createWebhookParams_cases hp with h|h|h|h
  all_goals
    first
      | (rw [h]; simp; done)
      | (rw [(ifTruthy_mem_key h).1]; decide)
      | (rw [(ifDefinedStr_mem_key h).1]; decide)
      | (rw [(ifDefinedBool_mem_key h).1]; decide)
      | (rw [(ifDefinedPos_mem_key h).1]; decide)
      | (rw [(ifDefinedNullable_mem_key h).1]; decide)
      | (rw [(ifDefinedOrEmpty_mem_key h).1]; decide)
      | (rw [(ifNonemptyList_mem_key h).1]; decide)
      | exact absurd hf (ifTruthy_mem_key h).2
      | exact absurd hf (ifDefinedStr_mem_key h).2
      | exact absurd hf (ifDefinedBool_mem_key h).2
      | exact absurd hf (ifDefinedPos_mem_key h).2
      | exact absurd hf (ifDefinedNullable_mem_key h).2
      | exact absurd hf (ifDefinedOrEmpty_mem_key h).2
      | exact absurd hf (ifNonemptyList_mem_key h).2

/-- Membership in the updateWebhook parameter record comes from one of its
chunks, listed in source order. -/
lemma updateWebhookParams_cases {input : TrelloWebhookUpdateInput} {p : String × String}
    (hp : p ∈ updateWebhookParams input) :
    p ∈ ifDefinedStr "description" input.description
      ∨ p ∈ ifTruthy "callbackURL" input.callbackURL
      ∨ p ∈ ifTruthy "idModel" input.idModel
      ∨ p ∈ ifDefinedBool "active" input.active := by
  simpa [updateWebhookParams, or_assoc] using hp

/-- Every omitted optional field of a updateWebhook input leaves its key out
of the outbound query. -/
lemma updateWebhook_omitted_fields_absent (creds : TenantCredentials) (webhookId : String)
    (input : TrelloWebhookUpdateInput) :
    (input.description = none → keyAbsent (updateWebhook creds webhookId input) "description")
      ∧ (input.callbackURL = none → keyAbsent (updateWebhook creds webhookId input) "callbackURL")
      ∧ (input.idModel = none → keyAbsent (updateWebhook creds webhookId input) "idModel")
      ∧ (input.active = none → keyAbsent (updateWebhook creds webhookId input) "active") := by
  refine ⟨?_, ?_, ?_, ?_⟩
  all_goals intro hf
  all_goals refine keyAbsent_request _ _ _ _ _ _ (by decide) (by decide) ?_
  all_goals intro p hp
  all_goals rcases updateWebhookParams_cases hp with h|h|h|h
  all_goals
    first
      | (rw [h]; simp; done)
      | (rw [(ifTruthy_mem_key h).1]; decide)
      | (rw [(ifDefinedStr_mem_key h).1]; decide)
      | (rw [(ifDefinedBool_mem_key h).1]; decide)
      | (rw [(ifDefinedPos_mem_key h).1]; decide)
      | (rw [(ifDefinedNullable_mem_key h).1]; decide)
      | (rw [(ifDefinedOrEmpty_mem_key h).1]; decide)
      | (rw [(ifNonemptyList_mem_key h).1]; decide)
      | exact absurd hf (ifTruthy_mem_key h).2
      | exact absurd hf (ifDefinedStr_mem_key h).2
      | exact absurd hf (ifDefinedBool_mem_key h).2
      | exact absurd hf (ifDefinedPos_mem_key h).2
      | exact absurd hf (ifDefinedNullable_mem_key h).2
      | exact absurd hf (ifDefinedOrEmpty_mem_key h).2
      | exact absurd hf (ifNonemptyList_mem_key h).2

/-- Membership in the addAttachmentToCard parameter record comes from one of its
chunks, listed in source order. -/
lemma addAttachmentToCardParams_cases {input : TrelloAttachmentCreateInput} {p : String × String}
    (hp : p ∈ addAttachmentToCardParams input) :
    p ∈ ifTruthy "name" input.name
      ∨ p ∈ ifTruthy "url" input.url
      ∨ p ∈ ifTruthy "mimeType" input.mimeType
      ∨ p ∈ ifDefinedBool "setCover" input.setCover := by
  simpa [addAttachmentToCardParams, or_assoc] using hp

/-- Every omitted optional field of a addAttachmentToCard input leaves its key out
of the outbound query. -/
lemma addAttachmentToCard_omitted_fields_absent (creds : TenantCredentials) (cardId : String)
    (input : TrelloAttachmentCreateInput) :
    (input.name = none → keyAbsent (addAttachmentToCard creds cardId input) "name")
      ∧ (input.file = none → keyAbsent (addAttachmentToCard creds cardId input) "file")
      ∧ (input.mimeType = none → keyAbsent (addAttachmentToCard creds cardId input) "mimeType")
      ∧ (input.url = none → keyAbsent (addAttachmentToCard creds cardId input) "url")
      ∧ (input.setCover = none → keyAbsent (addAttachmentToCard creds cardId input) "setCover") := by
  refine ⟨?_, ?_, ?_, ?_, ?_⟩
  all_goals intro hf
  all_goals refine keyAbsent_request _ _ _ _ _ _ (by decide) (by decide) ?_
  all_goals intro p hp
  all_goals rcases addAttachmentToCardParams_cases hp with h|h|h|h
  all_goals
    first
      | (rw [h]; simp; done)
      | (rw [(ifTruthy_mem_key h).1]; decide)
      | (rw [(ifDefinedStr_mem_key h).1]; decide)
      | (rw [(ifDefinedBool_mem_key h).1]; decide)
      | (rw [(ifDefinedPos_mem_key h).1]; decide)
      | (rw [(ifDefinedNullable_mem_key h).1]; decide)
      | (rw [(ifDefinedOrEmpty_mem_key h).1]; decide)
      | (rw [(ifNonemptyList_mem_key h).1]; decide)
      | exact absurd hf (ifTruthy_mem_key h).2
      | exact absurd hf (ifDefinedStr_mem_key h).2
      | exact absurd hf (ifDefinedBool_mem_key h).2
      | exact absurd hf (ifDefinedPos_mem_key h).2
      | exact absurd hf (ifDefinedNullable_mem_key h).2
      | exact absurd hf (ifDefinedOrEmpty_mem_key h).2
      | exact absurd hf (ifNonemptyList_mem_key h).2

/-- Membership in the updateList parameter record comes from one of its
chunks, listed in source order. -/
lemma updateListParams_cases {input : TrelloListUpdateInput} {p : String × String}
    (hp : p ∈ updateListParams input) :
    p ∈ ifTruthy "name" input.name
      ∨ p ∈ ifDefinedBool "closed" input.closed
      ∨ p ∈ ifTruthy "idBoard" input.idBoard
      ∨ p ∈ ifDefinedPos "pos" input.pos
      ∨ p ∈ ifDefinedBool "subscribed" input.subscribed := by
  simpa [updateListParams, or_assoc] using hp

/-- Membership in the updateCheckItem parameter record comes from one of
its chunks, listed in source order. -/
lemma updateCheckItemParams_cases {input : TrelloCheckItemUpdateInput} {p : String × String}
    (hp : p ∈ updateCheckItemParams input) :
    p ∈ ifTruthy "name" input.name
      ∨ p ∈ ifTruthy "state" input.state
      ∨ p ∈ ifDefinedPos "pos" input.pos
      ∨ p ∈ ifDefinedNullable "due" input.due
      ∨ p ∈ ifDefinedNullable "idMember" input.idMember := by
  simpa [updateCheckItemParams, or_assoc] using hp

/-- Every omitted optional field of a updateList input leaves its key out
of the outbound query. -/
lemma updateList_omitted_fields_absent (creds : TenantCredentials) (listId : String)
    (input : TrelloListUpdateInput) :
    (input.name = none → keyAbsent (updateList creds listId input) "name")
  ∧ (input.closed = none → keyAbsent (updateList creds listId input) "closed")
  ∧ (input.idBoard = none → keyAbsent (updateList creds listId input) "idBoard")
  ∧ (input.pos = none → keyAbsent (updateList creds listId input) "pos")
  ∧ (input.subscribed = none → keyAbsent (updateList creds listId input) "subscribed") := by
  refine ⟨?_, ?_, ?_, ?_, ?_⟩
  all_goals intro hf
  all_goals refine keyAbsent_request _ _ _ _ _ _ (by decide) (by decide) ?_
  all_goals intro p hp
  all_goals rcases updateListParams_cases hp with h|h|h|h|h
  all_goals
    first
      | (rw [h]; simp; done)
      | (rw [(ifTruthy_mem_key h).1]; decide)
      | (rw [(ifDefinedStr_mem_key h).1]; decide)
      | (rw [(ifDefinedBool_mem_key h).1]; decide)
      | (rw [(ifDefinedPos_mem_key h).1]; decide)
      | (rw [(ifDefinedNullable_mem_key h).1]; decide)
      | (rw [(ifDefinedOrEmpty_mem_key h).1]; decide)
      | (rw [(ifNonemptyList_mem_key h).1]; decide)
      | exact absurd hf (ifTruthy_mem_key h).2
      | exact absurd hf (ifDefinedStr_mem_key h).2
      | exact absurd hf (ifDefinedBool_mem_key h).2
      | exact absurd hf (ifDefinedPos_mem_key h).2
      | exact absurd hf (ifDefinedNullable_mem_key h).2
      | exact absurd hf (ifDefinedOrEmpty_mem_key h).2
      | exact absurd hf (ifNonemptyList_mem_key h).2

/-- Every omitted optional field of a updateCheckItem input leaves its key out
of the outbound query. -/
lemma updateCheckItem_omitted_fields_absent (creds : TenantCredentials) (cardId : String) (checkItemId : String)
    (input : TrelloCheckItemUpdateInput) :
    (input.name = none → keyAbsent (updateCheckItem creds cardId checkItemId input) "name")
  ∧ (input.state = none → keyAbsent (updateCheckItem creds cardId checkItemId input) "state")
  ∧ (input.pos = none → keyAbsent (updateCheckItem creds cardId checkItemId input) "pos")
  ∧ (input.due = none → keyAbsent (updateCheckItem creds cardId checkItemId input) "due")
  ∧ (input.idMember = none → keyAbsent (updateCheckItem creds cardId checkItemId input) "idMember") := by
  refine ⟨?_, ?_, ?_, ?_, ?_⟩
  all_goals intro hf
  all_goals refine keyAbsent_request _ _ _ _ _ _ (by decide) (by decide) ?_
  all_goals intro p hp
  all_goals rcases updateCheckItemParams_cases hp with h|h|h|h|h
  all_goals
    first
      | (rw [h]; simp; done)
      | (rw [(ifTruthy_mem_key h).1]; decide)
      | (rw [(ifDefinedStr_mem_key h).1]; decide)
      | (rw [(ifDefinedBool_mem_key h).1]; decide)
      | (rw [(ifDefinedPos_mem_key h).1]; decide)
      | (rw [(ifDefinedNullable_mem_key h).1]; decide)
      | (rw [(ifDefinedOrEmpty_mem_key h).1]; decide)
      | (rw [(ifNonemptyList_mem_key h).1]; decide)
      | exact absurd hf (ifTruthy_mem_key h).2
      | exact absurd hf (ifDefinedStr_mem_key h).2
      | exact absurd hf (ifDefinedBool_mem_key h).2
      | exact absurd hf (ifDefinedPos_mem_key h).2
      | exact absurd hf (ifDefinedNullable_mem_key h).2
      | exact absurd hf (ifDefinedOrEmpty_mem_key h).2
      | exact absurd hf (ifNonemptyList_mem_key h).2

/-- Every omitted optional field of a createCard input leaves its key out
of the outbound query. -/
lemma createCard_omitted_fields_absent (creds : TenantCredentials)
    (input : TrelloCardCreateInput) :
    (input.desc = none → keyAbsent (createCard creds input) "desc")
  ∧ (input.pos = none → keyAbsent (createCard creds input) "pos")
  ∧ (input.due = none → keyAbsent (createCard creds input) "due")
  ∧ (input.start = none → keyAbsent (createCard creds input) "start")
  ∧ (input.dueComplete = none → keyAbsent (createCard creds input) "dueComplete")
  ∧ (input.idMembers = none → keyAbsent (createCard creds input) "idMembers")
  ∧ (input.idLabels = none → keyAbsent (createCard creds input) "idLabels")
  ∧ (input.urlSource = none → keyAbsent (createCard creds input) "urlSource")
  ∧ (input.fileSource = none → keyAbsent (createCard creds input) "fileSource")
  ∧ (input.mimeType = none → keyAbsent (createCard creds input) "mimeType")
  ∧ (input.idCardSource = none → keyAbsent (createCard creds input) "idCardSource")
  ∧ (input.keepFromSource = none → keyAbsent (createCard creds input) "keepFromSource")
  ∧ (input.address = none → keyAbsent (createCard creds input) "address")
  ∧ (input.locationName = none → keyAbsent (createCard creds input) "locationName")
  ∧ (input.coordinates = none → keyAbsent (createCard creds input) "coordinates") := by
  refine ⟨?_, ?_, ?_, ?_, ?_, ?_, ?_, ?_, ?_, ?_, ?_, ?_, ?_, ?_, ?_⟩
  all_goals intro hf
  all_goals refine keyAbsent_request _ _ _ _ _ _ (by decide) (by decide) ?_
  all_goals intro p hp
  all_goals rcases createCardParams_cases hp with h|h|h|h|h|h|h|h|h|h|h|h|h|h|h
  all_goals
    first
      | (rw [h]; simp; done)
      | (rw [(ifTruthy_mem_key h).1]; decide)
      | (rw [(ifDefinedStr_mem_key h).1]; decide)
      | (rw [(ifDefinedBool_mem_key h).1]; decide)
      | (rw [(ifDefinedPos_mem_key h).1]; decide)
      | (rw [(ifDefinedNullable_mem_key h).1]; decide)
      | (rw [(ifDefinedOrEmpty_mem_key h).1]; decide)
      | (rw [(ifNonemptyList_mem_key h).1]; decide)
      | exact absurd hf (ifTruthy_mem_key h).2
      | exact absurd hf (ifDefinedStr_mem_key h).2
      | exact absurd hf (ifDefinedBool_mem_key h).2
      | exact absurd hf (ifDefinedPos_mem_key h).2
      | exact absurd hf (ifDefinedNullable_mem_key h).2
      | exact absurd hf (ifDefinedOrEmpty_mem_key h).2
      | exact absurd hf (ifNonemptyList_mem_key h).2

/-- Every omitted optional field of a updateCard input leaves its key out
of the outbound query. -/
lemma updateCard_omitted_fields_absent (creds : TenantCredentials) (cardId : String)
    (input : TrelloCardUpdateInput) :
    (input.name = none → keyAbsent (updateCard creds cardId input) "name")
  ∧ (input.desc = none → keyAbsent (updateCard creds cardId input) "desc")
  ∧ (input.closed = none → keyAbsent (updateCard creds cardId input) "closed")
  ∧ (input.idList = none → keyAbsent (updateCard creds cardId input) "idList")
  ∧ (input.idBoard = none → keyAbsent (updateCard creds cardId input) "idBoard")
  ∧ (input.pos = none → keyAbsent (updateCard creds cardId input) "pos")
  ∧ (input.due = none → keyAbsent (updateCard creds cardId input) "due")
  ∧ (input.start = none → keyAbsent (updateCard creds cardId input) "start")
  ∧ (input.dueComplete = none → keyAbsent (updateCard creds cardId input) "dueComplete")
  ∧ (input.subscribed = none → keyAbsent (updateCard creds cardId input) "subscribed")
  ∧ (input.idMembers = none → keyAbsent (updateCard creds cardId input) "idMembers")
  ∧ (input.idLabels = none → keyAbsent (updateCard creds cardId input) "idLabels")
  ∧ (input.cover = none → keyAbsent (updateCard creds cardId input) "cover") := by
  refine ⟨?_, ?_, ?_, ?_, ?_, ?_, ?_, ?_, ?_, ?_, ?_, ?_, ?_⟩
  all_goals intro hf
  all_goals refine keyAbsent_request _ _ _ _ _ _ (by decide) (by decide) ?_
  all_goals intro p hp
  all_goals rcases updateCardParams_cases hp with h|h|h|h|h|h|h|h|h|h
  all_goals
    first
      | (rw [h]; simp; done)
      | (rw [(ifTruthy_mem_key h).1]; decide)
      | (rw [(ifDefinedStr_mem_key h).1]; decide)
      | (rw [(ifDefinedBool_mem_key h).1]; decide)
      | (rw [(ifDefinedPos_mem_key h).1]; decide)
      | (rw [(ifDefinedNullable_mem_key h).1]; decide)
      | (rw [(ifDefinedOrEmpty_mem_key h).1]; decide)
      | (rw [(ifNonemptyList_mem_key h).1]; decide)
      | exact absurd hf (ifTruthy_mem_key h).2
      | exact absurd hf (ifDefinedStr_mem_key h).2
      | exact absurd hf (ifDefinedBool_mem_key h).2
      | exact absurd hf (ifDefinedPos_mem_key h).2
      | exact absurd hf (ifDefinedNullable_mem_key h).2
      | exact absurd hf (ifDefinedOrEmpty_mem_key h).2
      | exact absurd hf (ifNonemptyList_mem_key h).2

/-- C6: for every create or update operation of the client and every
optional field of its input, a field the caller does not supply never
contributes a parameter: the corresponding key is absent from the
outbound query; in particular `createCard` without a due field sends no
due parameter at all. -/
theorem omitted_fields_absent_from_outbound_params (creds : TenantCredentials)
    (boardId listId cardId checkItemId labelId checklistId customFieldId
      orgId webhookId : String)
    (bc : TrelloBoardCreateInput) (bu : TrelloBoardUpdateInput) (lc : TrelloListCreateInput)
    (lu : TrelloListUpdateInput) (cc : TrelloCardCreateInput) (cu : TrelloCardUpdateInput)
    (att : TrelloAttachmentCreateInput) (labc : TrelloLabelCreateInput)
    (labu : TrelloLabelUpdateInput) (chc : TrelloChecklistCreateInput)
    (cic : TrelloCheckItemCreateInput) (ciu : TrelloCheckItemUpdateInput)
    (cfc : TrelloCustomFieldCreateInput) (cfu : TrelloCustomFieldUpdateInput)
    (oc : TrelloOrganizationCreateInput) (ou : TrelloOrganizationUpdateInput)
    (wc : TrelloWebhookCreateInput) (wu : TrelloWebhookUpdateInput) :
    ((bc.desc = none → keyAbsent (createBoard creds bc) "desc")
        ∧ (bc.idOrganization = none → keyAbsent (createBoard creds bc) "idOrganization")
        ∧ (bc.idBoardSource = none → keyAbsent (createBoard creds bc) "idBoardSource")
        ∧ (bc.keepFromSource = none → keyAbsent (createBoard creds bc) "keepFromSource")
        ∧ (bc.powerUps = none → keyAbsent (createBoard creds bc) "powerUps")
        ∧ (bc.prefs_permissionLevel = none → keyAbsent (createBoard creds bc) "prefs_permissionLevel")
        ∧ (bc.prefs_voting = none → keyAbsent (createBoard creds bc) "prefs_voting")
        ∧ (bc.prefs_comments = none → keyAbsent (createBoard creds bc) "prefs_comments")
        ∧ (bc.prefs_invitations = none → keyAbsent (createBoard creds bc) "prefs_invitations")
        ∧ (bc.prefs_selfJoin = none → keyAbsent (createBoard creds bc) "prefs_selfJoin")
        ∧ (bc.prefs_cardCovers = none → keyAbsent (createBoard creds bc) "prefs_cardCovers")
        ∧ (bc.prefs_background = none → keyAbsent (createBoard creds bc) "prefs_background")
        ∧ (bc.prefs_cardAging = none → keyAbsent (createBoard creds bc) "prefs_cardAging")
        ∧ (bc.defaultLabels = none → keyAbsent (createBoard creds bc) "defaultLabels")
        ∧ (bc.defaultLists = none → keyAbsent (createBoard creds bc) "defaultLists"))
      ∧ ((bu.name = none → keyAbsent (updateBoard creds boardId bu) "name")
        ∧ (bu.desc = none → keyAbsent (updateBoard creds boardId bu) "desc")
        ∧ (bu.closed = none → keyAbsent (updateBoard creds boardId bu) "closed")
        ∧ (bu.subscribed = none → keyAbsent (updateBoard creds boardId bu) "subscribed")
        ∧ (bu.idOrganization = none → keyAbsent (updateBoard creds boardId bu) "idOrganization")
        ∧ (bu.prefs_permissionLevel = none → keyAbsent (updateBoard creds boardId bu) "prefs/permissionLevel")
        ∧ (bu.prefs_selfJoin = none → keyAbsent (updateBoard creds boardId bu) "prefs/selfJoin")
        ∧ (bu.prefs_cardCovers = none → keyAbsent (updateBoard creds boardId bu) "prefs/cardCovers")
        ∧ (bu.prefs_hideVotes = none → keyAbsent (updateBoard creds boardId bu) "prefs/hideVotes")
        ∧ (bu.prefs_invitations = none → keyAbsent (updateBoard creds boardId bu) "prefs/invitations")
        ∧ (bu.prefs_voting = none → keyAbsent (updateBoard creds boardId bu) "prefs/voting")
        ∧ (bu.prefs_comments = none → keyAbsent (updateBoard creds boardId bu) "prefs/comments")
        ∧ (bu.prefs_background = none → keyAbsent (updateBoard creds boardId bu) "prefs/background")
        ∧ (bu.prefs_cardAging = none → keyAbsent (updateBoard creds boardId bu) "prefs/cardAging")
        ∧ (bu.prefs_calendarFeedEnabled = none → keyAbsent (updateBoard creds boardId bu) "prefs/calendarFeedEnabled")
        ∧ (bu.labelNames_green = none → keyAbsent (updateBoard creds boardId bu) "labelNames/green")
        ∧ (bu.labelNames_yellow = none → keyAbsent (updateBoard creds boardId bu) "labelNames/yellow")
        ∧ (bu.labelNames_orange = none → keyAbsent (updateBoard creds boardId bu) "labelNames/orange")
        ∧ (bu.labelNames_red = none → keyAbsent (updateBoard creds boardId bu) "labelNames/red")
        ∧ (bu.labelNames_purple = none → keyAbsent (updateBoard creds boardId bu) "labelNames/purple")
        ∧ (bu.labelNames_blue = none → keyAbsent (updateBoard creds boardId bu) "labelNames/blue"))
      ∧ ((lc.idListSource = none → keyAbsent (createList creds lc) "idListSource")
        ∧ (lc.pos = none → keyAbsent (createList creds lc) "pos"))
      ∧ ((lu.name = none → keyAbsent (updateList creds listId lu) "name")
        ∧ (lu.closed = none → keyAbsent (updateList creds listId lu) "closed")
        ∧ (lu.idBoard = none → keyAbsent (updateList creds listId lu) "idBoard")
        ∧ (lu.pos = none → keyAbsent (updateList creds listId lu) "pos")
        ∧ (lu.subscribed = none → keyAbsent (updateList creds listId lu) "subscribed"))
      ∧ ((cc.desc = none → keyAbsent (createCard creds cc) "desc")
        ∧ (cc.pos = none → keyAbsent (createCard creds cc) "pos")
        ∧ (cc.due = none → keyAbsent (createCard creds cc) "due")
        ∧ (cc.start = none → keyAbsent (createCard creds cc) "start")
        ∧ (cc.dueComplete = none → keyAbsent (createCard creds cc) "dueComplete")
        ∧ (cc.idMembers = none → keyAbsent (createCard creds cc) "idMembers")
        ∧ (cc.idLabels = none → keyAbsent (createCard creds cc) "idLabels")
        ∧ (cc.urlSource = none → keyAbsent (createCard creds cc) "urlSource")
        ∧ (cc.fileSource = none → keyAbsent (createCard creds cc) "fileSource")
        ∧ (cc.mimeType = none → keyAbsent (createCard creds cc) "mimeType")
        ∧ (cc.idCardSource = none → keyAbsent (createCard creds cc) "idCardSource")
        ∧ (cc.keepFromSource = none → keyAbsent (createCard creds cc) "keepFromSource")
        ∧ (cc.address = none → keyAbsent (createCard creds cc) "address")
        ∧ (cc.locationName = none → keyAbsent (createCard creds cc) "locationName")
        ∧ (cc.coordinates = none → keyAbsent (createCard creds cc) "coordinates"))
      ∧ ((cu.name = none → keyAbsent (updateCard creds cardId cu) "name")
        ∧ (cu.desc = none → keyAbsent (updateCard creds cardId cu) "desc")
        ∧ (cu.closed = none → keyAbsent (updateCard creds cardId cu) "closed")
        ∧ (cu.idList = none → keyAbsent (updateCard creds cardId cu) "idList")
        ∧ (cu.idBoard = none → keyAbsent (updateCard creds cardId cu) "idBoard")
        ∧ (cu.pos = none → keyAbsent (updateCard creds cardId cu) "pos")
        ∧ (cu.due = none → keyAbsent (updateCard creds cardId cu) "due")
        ∧ (cu.start = none → keyAbsent (updateCard creds cardId cu) "start")
        ∧ (cu.dueComplete = none → keyAbsent (updateCard creds cardId cu) "dueComplete")
        ∧ (cu.subscribed = none → keyAbsent (updateCard creds cardId cu) "subscribed")
        ∧ (cu.idMembers = none → keyAbsent (updateCard creds cardId cu) "idMembers")
        ∧ (cu.idLabels = none → keyAbsent (updateCard creds cardId cu) "idLabels")
        ∧ (cu.cover = none → keyAbsent (updateCard creds cardId cu) "cover"))
      ∧ ((att.name = none → keyAbsent (addAttachmentToCard creds cardId att) "name")
        ∧ (att.file = none → keyAbsent (addAttachmentToCard creds cardId att) "file")
        ∧ (att.mimeType = none → keyAbsent (addAttachmentToCard creds cardId att) "mimeType")
        ∧ (att.url = none → keyAbsent (addAttachmentToCard creds cardId att) "url")
        ∧ (att.setCover = none → keyAbsent (addAttachmentToCard creds cardId att) "setCover"))
      ∧ ((labc.color = none → keyAbsent (createLabel creds labc) "color"))
      ∧ ((labu.name = none → keyAbsent (updateLabel creds labelId labu) "name")
        ∧ (labu.color = none → keyAbsent (updateLabel creds labelId labu) "color"))
      ∧ ((chc.name = none → keyAbsent (createChecklist creds chc) "name")
        ∧ (chc.pos = none → keyAbsent (createChecklist creds chc) "pos")
        ∧ (chc.idChecklistSource = none → keyAbsent (createChecklist creds chc) "idChecklistSource"))
      ∧ ((cic.pos = none → keyAbsent (createCheckItem creds checklistId cic) "pos")
        ∧ (cic.checked = none → keyAbsent (createCheckItem creds checklistId cic) "checked")
        ∧ (cic.due = none → keyAbsent (createCheckItem creds checklistId cic) "due")
        ∧ (cic.idMember = none → keyAbsent (createCheckItem creds checklistId cic) "idMember"))
      ∧ ((ciu.name = none → keyAbsent (updateCheckItem creds cardId checkItemId ciu) "name")
        ∧ (ciu.state = none → keyAbsent (updateCheckItem creds cardId checkItemId ciu) "state")
        ∧ (ciu.pos = none → keyAbsent (updateCheckItem creds cardId checkItemId ciu) "pos")
        ∧ (ciu.due = none → keyAbsent (updateCheckItem creds cardId checkItemId ciu) "due")
        ∧ (ciu.idMember = none → keyAbsent (updateCheckItem creds cardId checkItemId ciu) "idMember"))
      ∧ ((cfc.pos = none → keyAbsent (createCustomField creds cfc) "pos")
        ∧ (cfc.display_cardFront = none → keyAbsent (createCustomField creds cfc) "display_cardFront"))
      ∧ ((cfu.name = none → keyAbsent (updateCustomField creds customFieldId cfu) "name")
        ∧ (cfu.pos = none → keyAbsent (updateCustomField creds customFieldId cfu) "pos")
        ∧ (cfu.display_cardFront = none → keyAbsent (updateCustomField creds customFieldId cfu) "display/cardFront"))
      ∧ ((oc.desc = none → keyAbsent (createOrganization creds oc) "desc")
        ∧ (oc.name = none → keyAbsent (createOrganization creds oc) "name")
        ∧ (oc.website = none → keyAbsent (createOrganization creds oc) "website"))
      ∧ ((ou.name = none → keyAbsent (updateOrganization creds orgId ou) "name")
        ∧ (ou.displayName = none → keyAbsent (updateOrganization creds orgId ou) "displayName")
        ∧ (ou.desc = none → keyAbsent (updateOrganization creds orgId ou) "desc")
        ∧ (ou.website = none → keyAbsent (updateOrganization creds orgId ou) "website")
        ∧ (ou.prefs_permissionLevel = none → keyAbsent (updateOrganization creds orgId ou) "prefs/permissionLevel")
        ∧ (ou.prefs_orgInviteRestrict = none → keyAbsent (updateOrganization creds orgId ou) "prefs/orgInviteRestrict")
        ∧ (ou.prefs_boardVisibilityRestrict_private = none → keyAbsent (updateOrganization creds orgId ou) "prefs/boardVisibilityRestrict/private")
        ∧ (ou.prefs_boardVisibilityRestrict_org = none → keyAbsent (updateOrganization creds orgId ou) "prefs/boardVisibilityRestrict/org")
        ∧ (ou.prefs_boardVisibilityRestrict_public = none → keyAbsent (updateOrganization creds orgId ou) "prefs/boardVisibilityRestrict/public"))
      ∧ ((wc.description = none → keyAbsent (createWebhook creds wc) "description")
        ∧ (wc.active = none → keyAbsent (createWebhook creds wc) "active"))
      ∧ ((wu.description = none → keyAbsent (updateWebhook creds webhookId wu) "description")
        ∧ (wu.callbackURL = none → keyAbsent (updateWebhook creds webhookId wu) "callbackURL")
        ∧ (wu.idModel = none → keyAbsent (updateWebhook creds webhookId wu) "idModel")
        ∧ (wu.active = none → keyAbsent (updateWebhook creds webhookId wu) "active")) := by
  exact ⟨createBoard_omitted_fields_absent creds bc,
    updateBoard_omitted_fields_absent creds boardId bu,
    createList_omitted_fields_absent creds lc,
    updateList_omitted_fields_absent creds listId lu,
    createCard_omitted_fields_absent creds cc,
    updateCard_omitted_fields_absent creds cardId cu,
    addAttachmentToCard_omitted_fields_absent creds cardId att,
    createLabel_omitted_fields_absent creds labc,
    updateLabel_omitted_fields_absent creds labelId labu,
    createChecklist_omitted_fields_absent creds chc,
    createCheckItem_omitted_fields_absent creds checklistId cic,
    updateCheckItem_omitted_fields_absent creds cardId checkItemId ciu,
    createCustomField_omitted_fields_absent creds cfc,
    updateCustomField_omitted_fields_absent creds customFieldId cfu,
    createOrganization_omitted_fields_absent creds oc,
    updateOrganization_omitted_fields_absent creds orgId ou,
    createWebhook_omitted_fields_absent creds wc,
    updateWebhook_omitted_fields_absent creds webhookId wu⟩

/-- C6 witness: a minimal create input and an empty update input send no
due parameter. -/
theorem omitted_fields_absent_witness :
    keyAbsent (createCard creds0 { idList := "l1", name := "n1" }) "due"
      ∧ keyAbsent (updateCard creds0 "card1" {}) "due" := by
  have H := omitted_fields_absent_from_outbound_params creds0 "b1" "l1" "card1"
    "i1" "lab1" "chk1" "cf1" "org1" "wh1" { name := "n" } {}
    { name := "n", idBoard := "b" } {} { idList := "l1", name := "n1" } {} {}
    { name := "n", idBoard := "b" } {} { idCard := "c" } { name := "n" } {}
    { idModel := "m", modelType := "board", name := "n", type := "text" } {}
    { displayName := "d" } {} { callbackURL := "u", idModel := "m" } {}
  obtain ⟨_, _, _, _, B5, B6, _, _, _, _, _, _, _, _, _, _, _, _⟩ := H
  exact ⟨B5.2.2.1 rfl, B6.2.2.2.2.2.2.1 rfl⟩

end Trello
